import Mathlib

/-! quadmax-wifi-connector: status text parsing and the reconnection state machine

A shallow embedding of `wifi/wifi.go` (the line-oriented parsers that turn
the output of `netsh wlan ...` into records) and of the state machine of
`main.go` (`checkAndConnect`, `attemptConnection`, `updateState`).

Go strings are modelled as Lean `String`s (sequences of code points; the
labels and separators the code looks for are ASCII, for which bytes and code
points agree).  External commands are answered by an oracle, and every side
effect of the state machine is appended to a trace.  The code is modelled as
run by one goroutine at a time; the locks of `main.go` are not modelled.
-/

namespace Quadmax

/-! ## The Go library functions used by the parsers -/

/-- Go `unicode.IsSpace`: the Latin-1 spaces (tab, line feed, vertical tab,
form feed, carriage return, space, U+0085, U+00A0) and the other code points
with the Unicode `White_Space` property. -/
def isSpace (c : Char) : Bool :=
  let n := c.toNat
  n == 0x09 || n == 0x0a || n == 0x0b || n == 0x0c || n == 0x0d || n == 0x20 ||
  n == 0x85 || n == 0xa0 || n == 0x1680 || (0x2000 ≤ n && n ≤ 0x200a) ||
  n == 0x2028 || n == 0x2029 || n == 0x202f || n == 0x205f || n == 0x3000

/-- Go `strings.TrimSpace` on the characters of a string. -/
def trimChars (l : List Char) : List Char :=
  (l.dropWhile isSpace).rdropWhile isSpace

/-- Go `strings.TrimSpace`: the string without leading and trailing white space. -/
def TrimSpace (s : String) : String := ⟨trimChars s.data⟩

/-- Go `strings.HasPrefix s p`. -/
def HasPrefix (s p : String) : Bool := p.data.isPrefixOf s.data

/-- The list `sub` occurs in `l` as a block of consecutive characters. -/
def containsChars (sub : List Char) : List Char → Bool
  | [] => sub.isPrefixOf []
  | c :: cs => sub.isPrefixOf (c :: cs) || containsChars sub cs

/-- Go `strings.Contains s substr`. -/
def Contains (s substr : String) : Bool := containsChars substr.data s.data

/-- The part of `l` before the first colon, and the part after it when there
is a colon. -/
def splitColon : List Char → List Char × Option (List Char)
  | [] => ([], none)
  | c :: cs =>
    if c = ':' then ([], some cs)
    else ((splitColon cs).1.cons c, (splitColon cs).2)

/-- Go `strings.SplitN(s, ":", 2)`: one part (the whole string) when `s` has
no colon, else the part before the first colon and the part after it. -/
def SplitN (s : String) : List String :=
  match splitColon s.data with
  | (_, none) => [s]
  | (a, some b) => [⟨a⟩, ⟨b⟩]

/-- The `dropCR` of Go's `bufio.ScanLines`: one trailing carriage return is
removed. -/
def dropCR (l : List Char) : List Char :=
  if l.getLast? = some '\r' then l.dropLast else l

/-- Go `bufio.MaxScanTokenSize`: the size in bytes of the largest buffer that
a `bufio.Scanner` made by `bufio.NewScanner` allocates. -/
def MaxScanTokenSize : Nat := 64 * 1024

/-- The tokens that `scanner.Scan()` yields with `bufio.ScanLines` on the
remaining input `l`, where `cur` holds the characters of the current line read
so far.  A line is yielded when it and its newline fit the buffer, that is
when the line has fewer than `MaxScanTokenSize` bytes (UTF-8); at a longer
line `Scan` returns false for good (`ErrTooLong`, which the callers never
read), so that line and every later line are dropped. -/
def scanLinesFrom : List Char → List Char → List (List Char)
  | [], cur =>
    if cur = [] then []
    else if String.utf8Len cur < MaxScanTokenSize then [dropCR cur] else []
  | c :: cs, cur =>
    if c = '\n' then
      if String.utf8Len cur < MaxScanTokenSize then dropCR cur :: scanLinesFrom cs [] else []
    else scanLinesFrom cs (cur ++ [c])

/-- The lines that `bufio.NewScanner(strings.NewReader(output))` yields, one
per successful call of `scanner.Scan()`: the text is cut at every newline, one
trailing carriage return is dropped from each line, a last line without a
newline is yielded when it is not empty, and scanning ends at the first line
of `MaxScanTokenSize` bytes or more. -/
def scanLines (output : String) : List String :=
  (scanLinesFrom output.data []).map String.mk

/-! ## The records of `wifi/wifi.go` -/

/-- A wireless network adapter. -/
structure Adapter where
  Name : String
  State : String
deriving DecidableEq, Repr

/-- A visible WiFi network. -/
structure Network where
  SSID : String
deriving DecidableEq, Repr

/-- The current WiFi connection state. -/
structure ConnectionStatus where
  Connected : Bool
  SSID : String
  AdapterName : String
  SignalStrength : String
deriving DecidableEq, Repr

/-! ## `GetAdapters` -/

/-- The loop variables of `GetAdapters`. -/
structure AdapterLoop where
  adapters : List Adapter
  currentAdapter : Adapter
deriving DecidableEq, Repr

/-- One iteration of the loop of `GetAdapters` on the scanned line `raw`. -/
def adapterStep (st : AdapterLoop) (raw : String) : AdapterLoop :=
  let line := TrimSpace raw
  if HasPrefix line "Name" then
    match SplitN line with
    | [_, v] =>
      { adapters :=
          if st.currentAdapter.Name ≠ "" then st.adapters ++ [st.currentAdapter]
          else st.adapters,
        currentAdapter := { Name := TrimSpace v, State := "" } }
    | _ => st
  else if HasPrefix line "State" then
    match SplitN line with
    | [_, v] => { st with currentAdapter := { st.currentAdapter with State := TrimSpace v } }
    | _ => st
  else st

/-- The end of `GetAdapters` ("Add last adapter"): the current adapter is
appended when its name is not empty. -/
def flushLast (st : AdapterLoop) : List Adapter :=
  if st.currentAdapter.Name ≠ "" then st.adapters ++ [st.currentAdapter]
  else st.adapters

/-- The parse of `GetAdapters`: the adapters read from the output of
`netsh wlan show interfaces`. -/
def parseAdapters (output : String) : List Adapter :=
  flushLast ((scanLines output).foldl adapterStep
    { adapters := [], currentAdapter := { Name := "", State := "" } })

/-! ## `ScanNetworks` -/

/-- One iteration of the loop of `ScanNetworks` on the scanned line `raw`. -/
def networkStep (networks : List Network) (raw : String) : List Network :=
  let line := TrimSpace raw
  if HasPrefix line "SSID" && !HasPrefix line "SSID " then
    match SplitN line with
    | [_, v] =>
      let ssid := TrimSpace v
      if ssid ≠ "" then networks ++ [{ SSID := ssid }] else networks
    | _ => networks
  else networks

/-- The parse of `ScanNetworks`: the networks read from the output of
`netsh wlan show networks`. -/
def parseNetworks (output : String) : List Network :=
  (scanLines output).foldl networkStep []

/-! ## `GetSavedProfiles` -/

/-- One iteration of the loop of `GetSavedProfiles` on the scanned line `raw`. -/
def profileStep (profiles : List String) (raw : String) : List String :=
  let line := TrimSpace raw
  if Contains line "All User Profile" || Contains line "Current User Profile" then
    match SplitN line with
    | [_, v] =>
      let profile := TrimSpace v
      if profile ≠ "" then profiles ++ [profile] else profiles
    | _ => profiles
  else profiles

/-- The parse of `GetSavedProfiles`: the profile names read from the output
of `netsh wlan show profiles`. -/
def parseProfiles (output : String) : List String :=
  (scanLines output).foldl profileStep []

/-! ## `GetConnectionStatus` -/

/-- The loop variables of `GetConnectionStatus`. -/
structure StatusLoop where
  status : ConnectionStatus
  currentAdapterName : String
  inTargetAdapter : Bool
deriving DecidableEq, Repr

/-- The `Name` branch at the head of the loop body of `GetConnectionStatus`. -/
def statusName (adapterName : String) (st : StatusLoop) (line : String) : StatusLoop :=
  if HasPrefix line "Name" then
    match SplitN line with
    | [_, v] =>
      { st with
        currentAdapterName := TrimSpace v,
        inTargetAdapter := adapterName = "" || TrimSpace v = adapterName }
    | _ => st
  else st

/-- The `State` / `SSID` / `Signal` chain of the loop body of
`GetConnectionStatus`, run while in the target adapter. -/
def statusField (st : StatusLoop) (line : String) : StatusLoop :=
  if HasPrefix line "State" then
    match SplitN line with
    | [_, v] =>
      { st with status :=
          { st.status with
            Connected := TrimSpace v = "connected",
            AdapterName := st.currentAdapterName } }
    | _ => st
  else if HasPrefix line "SSID" && !HasPrefix line "SSID " then
    match SplitN line with
    | [_, v] => { st with status := { st.status with SSID := TrimSpace v } }
    | _ => st
  else if HasPrefix line "Signal" then
    match SplitN line with
    | [_, v] => { st with status := { st.status with SignalStrength := TrimSpace v } }
    | _ => st
  else st

/-- The loop of `GetConnectionStatus` over the scanned lines, with its
`continue` (not in the target adapter) and its `break` (an adapter filter was
given and the status has an adapter name). -/
def statusLoop (adapterName : String) : List String → StatusLoop → StatusLoop
  | [], st => st
  | raw :: rest, st =>
    let line := TrimSpace raw
    let st1 := statusName adapterName st line
    if !st1.inTargetAdapter then statusLoop adapterName rest st1
    else
      let st2 := statusField st1 line
      if st2.inTargetAdapter && st2.status.AdapterName ≠ "" && adapterName ≠ "" then st2
      else statusLoop adapterName rest st2

/-- The parse of `GetConnectionStatus`: the status read from the output of
`netsh wlan show interfaces` for the adapter `adapterName` (any adapter when
it is empty). -/
def parseConnectionStatus (adapterName output : String) : ConnectionStatus :=
  (statusLoop adapterName (scanLines output)
    { status := { Connected := false, SSID := "", AdapterName := "", SignalStrength := "" },
      currentAdapterName := "",
      inTargetAdapter := false }).status

/-! ## The state machine of `main.go` -/

/-- The configuration read by the state machine (`config.Config`). -/
structure Config where
  SelectedAdapter : String
  SelectedNetwork : String
  PollInterval : Int
deriving DecidableEq, Repr

/-- The current connection state. -/
inductive ConnectionState where
  | StateDisconnected
  | StateSearching
  | StateConnected
deriving DecidableEq, Repr

/-- The tray icons of the package `icons`, by name. -/
inductive Icon where
  | IconDisconnected
  | IconSearching
  | IconConnected
deriving DecidableEq, Repr

/-- The side effects of the state machine, in the order they happen. -/
inductive Event where
  /-- An external command was run, with its arguments and its outcome: the
  output, or `none` when the command failed. -/
  | exec (argv : List String) (out : Option String)
  /-- The call `time.Sleep(seconds * time.Second)`. -/
  | sleep (seconds : Nat)
  /-- The call `updateState(state, statusText)`, which writes `currentState`. -/
  | update (state : ConnectionState) (statusText : String)
  /-- The call `showNotification(title, message)`. -/
  | notify (title message : String)
deriving DecidableEq, Repr

/-- The outcome of the external commands: `env n` answers the command that is
run after `n` earlier ones, with its output or `none` when it fails. -/
abbrev Exec := Nat → Option String

/-- The global variables of `main.go` and the tray, with the number of
external commands run so far and the trace of side effects. -/
structure World where
  currentState : ConnectionState
  icon : Icon
  tooltip : String
  /-- The title of the status menu item, `none` while `mStatusItem` is nil. -/
  mStatusItem : Option String
  calls : Nat
  trace : List Event
deriving DecidableEq, Repr

/-- Running `exec.Command(argv...)` for its output (`cmd.Output()`,
`cmd.Run()`). -/
def runCmd (env : Exec) (argv : List String) (w : World) : Option String × World :=
  (env w.calls,
    { w with calls := w.calls + 1, trace := w.trace ++ [Event.exec argv (env w.calls)] })

/-- The command of `GetAdapters` and `GetConnectionStatus`. -/
def interfacesArgv : List String := ["netsh", "wlan", "show", "interfaces"]

/-- The command of `ScanNetworks`. -/
def networksArgv (adapterName : String) : List String :=
  if adapterName ≠ "" then ["netsh", "wlan", "show", "networks", "interface=" ++ adapterName]
  else ["netsh", "wlan", "show", "networks"]

/-- The command of `Connect`. -/
def connectArgv (adapterName ssid : String) : List String :=
  if adapterName ≠ "" then ["netsh", "wlan", "connect", "name=" ++ ssid, "interface=" ++ adapterName]
  else ["netsh", "wlan", "connect", "name=" ++ ssid]

/-- `wifi.GetAdapters`; `none` is the error result. -/
def GetAdapters (env : Exec) (w : World) : Option (List Adapter) × World :=
  match runCmd env interfacesArgv w with
  | (none, w1) => (none, w1)
  | (some output, w1) => (some (parseAdapters output), w1)

/-- `wifi.ScanNetworks`; `none` is the error result. -/
def ScanNetworks (env : Exec) (adapterName : String) (w : World) :
    Option (List Network) × World :=
  match runCmd env (networksArgv adapterName) w with
  | (none, w1) => (none, w1)
  | (some output, w1) => (some (parseNetworks output), w1)

/-- `wifi.GetSavedProfiles`; `none` is the error result. -/
def GetSavedProfiles (env : Exec) (w : World) : Option (List String) × World :=
  match runCmd env ["netsh", "wlan", "show", "profiles"] w with
  | (none, w1) => (none, w1)
  | (some output, w1) => (some (parseProfiles output), w1)

/-- `wifi.GetConnectionStatus`; `none` is the error result. -/
def GetConnectionStatus (env : Exec) (adapterName : String) (w : World) :
    Option ConnectionStatus × World :=
  match runCmd env interfacesArgv w with
  | (none, w1) => (none, w1)
  | (some output, w1) => (some (parseConnectionStatus adapterName output), w1)

/-- `wifi.Connect`; the result is `true` when the command succeeded (a nil
error). -/
def Connect (env : Exec) (adapterName ssid : String) (w : World) : Bool × World :=
  match runCmd env (connectArgv adapterName ssid) w with
  | (none, w1) => (false, w1)
  | (some _, w1) => (true, w1)

/-- `wifi.IsNetworkAvailable`; `none` is the error result. -/
def IsNetworkAvailable (env : Exec) (adapterName targetSSID : String) (w : World) :
    Option Bool × World :=
  match ScanNetworks env adapterName w with
  | (none, w1) => (none, w1)
  | (some networks, w1) => (some (networks.any fun network => network.SSID = targetSSID), w1)

/-- `showNotification`: the notification is pushed, best effort. -/
def showNotification (title message : String) (w : World) : World :=
  { w with trace := w.trace ++ [Event.notify title message] }

/-- `updateState`. -/
def updateState (cfg : Config) (state : ConnectionState) (statusText : String)
    (w : World) : World :=
  let previousState := w.currentState
  let w1 := { w with currentState := state, trace := w.trace ++ [Event.update state statusText] }
  let w2 : World :=
    match state with
    | .StateConnected =>
      { w1 with icon := .IconConnected, tooltip := "Quadmax WiFi - Connected" }
    | .StateSearching =>
      { w1 with icon := .IconSearching, tooltip := "Quadmax WiFi - Connecting..." }
    | .StateDisconnected =>
      { w1 with icon := .IconDisconnected, tooltip := "Quadmax WiFi - Disconnected" }
  let w3 : World :=
    match w2.mStatusItem with
    | some _ => { w2 with mStatusItem := some ("Status: " ++ statusText) }
    | none => w2
  if previousState = .StateConnected ∧ state = .StateDisconnected then
    let targetNetwork := cfg.SelectedNetwork
    if targetNetwork ≠ "" then
      showNotification "Disconnected" ("Lost connection to " ++ targetNetwork) w3
    else w3
  else w3

/-- The part of `checkAndConnect` from the comment "Network is available but
not connected - attempt to connect" to its end (step 5 and 6 of the tick). -/
def checkAndConnectStep5 (cfg : Config) (env : Exec) (w : World) : World :=
  let adapter := cfg.SelectedAdapter
  let targetNetwork := cfg.SelectedNetwork
  let w1 := updateState cfg .StateSearching ("Connecting to " ++ targetNetwork ++ "...") w
  match Connect env adapter targetNetwork w1 with
  | (false, w2) =>
    showNotification "Connection Failed" ("Could not connect to " ++ targetNetwork)
      (updateState cfg .StateDisconnected "Connection failed" w2)
  | (true, w2) =>
    let w3 := { w2 with trace := w2.trace ++ [Event.sleep 2] }
    match GetConnectionStatus env adapter w3 with
    | (some status, w4) =>
      if status.Connected && status.SSID = targetNetwork then
        showNotification "Connected" ("Successfully connected to " ++ targetNetwork)
          (updateState cfg .StateConnected ("Connected to " ++ targetNetwork) w4)
      else updateState cfg .StateDisconnected "Connection verification failed" w4
    | (none, w4) => updateState cfg .StateDisconnected "Connection verification failed" w4

/-- The part of `checkAndConnect` from the comment "Check if target network is
available" to its end (step 4 to 6 of the tick). -/
def checkAndConnectStep4 (cfg : Config) (env : Exec) (w : World) : World :=
  let adapter := cfg.SelectedAdapter
  let targetNetwork := cfg.SelectedNetwork
  match IsNetworkAvailable env adapter targetNetwork w with
  | (none, w1) => updateState cfg .StateDisconnected "Error scanning networks" w1
  | (some false, w1) =>
    updateState cfg .StateDisconnected (targetNetwork ++ " not in range") w1
  | (some true, w1) => checkAndConnectStep5 cfg env w1

/-- `checkAndConnect`: one tick of the state machine. -/
def checkAndConnect (cfg : Config) (env : Exec) (w : World) : World :=
  let adapter := cfg.SelectedAdapter
  let targetNetwork := cfg.SelectedNetwork
  if targetNetwork = "" then updateState cfg .StateDisconnected "No network configured" w
  else
    match GetConnectionStatus env adapter w with
    | (none, w1) => updateState cfg .StateDisconnected "Error checking status" w1
    | (some status, w1) =>
      if status.Connected && status.SSID = targetNetwork then
        updateState cfg .StateConnected ("Connected to " ++ targetNetwork) w1
      else checkAndConnectStep4 cfg env w1

/-- `attemptConnection`: the manual "Connect Now" trigger. -/
def attemptConnection (cfg : Config) (env : Exec) (w : World) : World :=
  let adapter := cfg.SelectedAdapter
  let targetNetwork := cfg.SelectedNetwork
  if targetNetwork = "" then
    showNotification "Error" "No target network configured. Open Settings to configure." w
  else
    let w1 := updateState cfg .StateSearching ("Connecting to " ++ targetNetwork ++ "...") w
    match Connect env adapter targetNetwork w1 with
    | (false, w2) =>
      showNotification "Connection Failed" ("Could not connect to " ++ targetNetwork)
        (updateState cfg .StateDisconnected "Connection failed" w2)
    | (true, w2) =>
      let w3 := { w2 with trace := w2.trace ++ [Event.sleep 2] }
      match GetConnectionStatus env adapter w3 with
      | (some status, w4) =>
        if status.Connected && status.SSID = targetNetwork then
          showNotification "Connected" ("Successfully connected to " ++ targetNetwork)
            (updateState cfg .StateConnected ("Connected to " ++ targetNetwork) w4)
        else updateState cfg .StateDisconnected "Connection verification failed" w4
      | (none, w4) => updateState cfg .StateDisconnected "Connection verification failed" w4

/-- The events that were appended to the trace between the world `w` and the
later world `w1`. -/
def eventsSince (w w1 : World) : List Event := w1.trace.drop w.trace.length

/-- The outcome of the most recent status query (`netsh wlan show interfaces`)
among the events `es`, `none` when there is none. -/
def lastStatusQuery (es : List Event) : Option (Option String) :=
  es.reverse.findSome? fun e =>
    match e with
    | .exec argv out => if argv = interfacesArgv then some out else none
    | _ => none

/-- The most recent status query among `es` succeeded, and its status is
connected with the SSID of the selected network. -/
def statusJustifies (cfg : Config) (es : List Event) : Prop :=
  match lastStatusQuery es with
  | some (some output) =>
    (parseConnectionStatus cfg.SelectedAdapter output).Connected = true ∧
    (parseConnectionStatus cfg.SelectedAdapter output).SSID = cfg.SelectedNetwork
  | _ => False

/-- Along the events `es`, which follow the events `pre`, every update to
`StateConnected` comes after a justifying status query. -/
def connectedJustified (cfg : Config) : List Event → List Event → Prop
  | _, [] => True
  | pre, e :: es =>
    (∀ msg, e = Event.update .StateConnected msg → statusJustifies cfg pre) ∧
    connectedJustified cfg (pre ++ [e]) es

/-- The status read from the outcome `out` of a status query is connected
with the SSID of the selected network (`err == nil && status.Connected &&
status.SSID == targetNetwork`). -/
def verified (cfg : Config) (out : Option String) : Bool :=
  match out with
  | some output =>
    (parseConnectionStatus cfg.SelectedAdapter output).Connected &&
      decide ((parseConnectionStatus cfg.SelectedAdapter output).SSID = cfg.SelectedNetwork)
  | none => false

/-- The notification of a lost connection, sent by an update to
`StateDisconnected` when the previous state was `prev`. -/
def lostEvents (cfg : Config) (prev : ConnectionState) : List Event :=
  if prev = .StateConnected ∧ cfg.SelectedNetwork ≠ "" then
    [Event.notify "Disconnected" ("Lost connection to " ++ cfg.SelectedNetwork)]
  else []

/-- The events of `checkAndConnectStep5` when `n` commands were run before. -/
def step5Events (cfg : Config) (env : Exec) (n : Nat) : List Event :=
  Event.update .StateSearching ("Connecting to " ++ cfg.SelectedNetwork ++ "...") ::
  Event.exec (connectArgv cfg.SelectedAdapter cfg.SelectedNetwork) (env n) ::
  match env n with
  | none =>
    [Event.update .StateDisconnected "Connection failed",
     Event.notify "Connection Failed" ("Could not connect to " ++ cfg.SelectedNetwork)]
  | some _ =>
    Event.sleep 2 :: Event.exec interfacesArgv (env (n + 1)) ::
    if verified cfg (env (n + 1)) then
      [Event.update .StateConnected ("Connected to " ++ cfg.SelectedNetwork),
       Event.notify "Connected" ("Successfully connected to " ++ cfg.SelectedNetwork)]
    else [Event.update .StateDisconnected "Connection verification failed"]

/-- The events of `checkAndConnectStep4` from the state `prev` when `n`
commands were run before. -/
def step4Events (cfg : Config) (env : Exec) (prev : ConnectionState) (n : Nat) : List Event :=
  Event.exec (networksArgv cfg.SelectedAdapter) (env n) ::
  match env n with
  | none => Event.update .StateDisconnected "Error scanning networks" :: lostEvents cfg prev
  | some output =>
    if (parseNetworks output).any fun network => network.SSID = cfg.SelectedNetwork then
      step5Events cfg env (n + 1)
    else
      Event.update .StateDisconnected (cfg.SelectedNetwork ++ " not in range") ::
        lostEvents cfg prev

/-- The events of `checkAndConnect` from the state `prev` when `n` commands
were run before. -/
def tickEvents (cfg : Config) (env : Exec) (prev : ConnectionState) (n : Nat) : List Event :=
  if cfg.SelectedNetwork = "" then [Event.update .StateDisconnected "No network configured"]
  else
    Event.exec interfacesArgv (env n) ::
    match env n with
    | none => Event.update .StateDisconnected "Error checking status" :: lostEvents cfg prev
    | some _ =>
      if verified cfg (env n) then
        [Event.update .StateConnected ("Connected to " ++ cfg.SelectedNetwork)]
      else step4Events cfg env prev (n + 1)

/-! ## Text forms and line predicates used in the statements -/

/-- The text of one adapter group: a `Name : <name>` line, followed by a
`State : <state>` line when there is a state. -/
def adapterGroup (name : String) (state : Option String) : String :=
  "Name : " ++ name ++ "\n" ++
    match state with
    | some s => "State : " ++ s ++ "\n"
    | none => ""

/-- The text made of the adapter groups `gs`, in order. -/
def adapterText : List (String × Option String) → String
  | [] => ""
  | g :: gs => adapterGroup g.1 g.2 ++ adapterText gs

/-- The record expected from an adapter group: its trimmed name and state. -/
def adapterOf (g : String × Option String) : Adapter :=
  { Name := TrimSpace g.1,
    State := match g.2 with
      | some s => TrimSpace s
      | none => "" }

/-- In the words of the saved-profile claim: the profile name that a line
contributes. The line contains `All User Profile` or `Current User Profile`,
it has a colon, and the text after its first colon, trimmed, is not empty; the
name is that trimmed text. -/
def profileOfLine (raw : String) : Option String :=
  if Contains raw "All User Profile" || Contains raw "Current User Profile" then
    match splitColon raw.data with
    | (_, some v) => if TrimSpace ⟨v⟩ ≠ "" then some (TrimSpace ⟨v⟩) else none
    | (_, none) => none
  else none

/-- The lines of a text, as lists of characters: the parts between its
newlines, with a last part after the last newline when that part is not
empty. -/
def textLinesChars : List Char → List (List Char)
  | [] => []
  | c :: cs =>
    if c = '\n' then [] :: textLinesChars cs
    else
      match textLinesChars cs with
      | [] => [[c]]
      | l :: ls => (c :: l) :: ls

/-- The lines of a text, whatever their length. -/
def textLines (output : String) : List String :=
  (textLinesChars output.data).map String.mk

/-- The lines `ls` of the rest of a text, when the characters `cur` of the
first of them were read before. -/
def joinLine (cur : List Char) (ls : List (List Char)) : List (List Char) :=
  match ls with
  | [] => if cur = [] then [] else [cur]
  | l :: rest => (cur ++ l) :: rest

/-- In the words of the saved-profile claim: the names contributed by the
lines of the text, every line of it, in input order. -/
def savedProfilesOfLines (output : String) : List String :=
  (textLines output).filterMap profileOfLine

/-- The names contributed by the lines of the text that come before its first
line of `MaxScanTokenSize` bytes or more, in input order. -/
def savedProfilesOfShortLines (output : String) : List String :=
  ((textLines output).takeWhile fun l => decide (l.utf8ByteSize < MaxScanTokenSize)).filterMap
    profileOfLine

/-- The scanned line `raw`, trimmed, starts with `Name` and its value after
the first colon trims to `adapterName`. -/
def NamesAdapter (raw adapterName : String) : Prop :=
  HasPrefix (TrimSpace raw) "Name" = true ∧
  ∃ k v, SplitN (TrimSpace raw) = [k, v] ∧ TrimSpace v = adapterName

/-- The line, without its surrounding white space, starts with `label`. -/
def lineStartsWith (raw label : String) : Bool := HasPrefix (TrimSpace raw) label

/-- The value of a line: the text after its first colon, trimmed; `none` when
the line has no colon. -/
def lineValue (raw : String) : Option String :=
  match splitColon raw.data with
  | (_, some v) => some (TrimSpace ⟨v⟩)
  | (_, none) => none

/-- The line is a `State` line whose value is `connected`. -/
def isStateConnected (raw : String) : Bool :=
  lineStartsWith raw "State" && decide (lineValue raw = some "connected")

/-- In the lines `ls`, every `State` line whose value is `connected` is
followed, somewhere after it, by a line that starts with `SSID`. -/
def connectedStateFollowedBySsid : List String → Bool
  | [] => true
  | raw :: rest =>
    (!isStateConnected raw || rest.any fun x => lineStartsWith x "SSID") &&
      connectedStateFollowedBySsid rest

/-- The loop of `GetConnectionStatus` is in the target adapter and holds a
non-empty SSID that is the value of a line of `L` starting with `SSID`. -/
def SsidRead (L : List String) (st : StatusLoop) : Prop :=
  st.inTargetAdapter = true ∧ st.status.SSID ≠ "" ∧
  ∃ l ∈ L, lineStartsWith l "SSID" = true ∧ lineValue l = some st.status.SSID

/-- When the status of the loop is connected, an SSID was read from `L`, or
the loop is in the target adapter and a line starting with `SSID` is still to
come among the lines `R`. -/
def SsidPending (L R : List String) (st : StatusLoop) : Prop :=
  st.status.Connected = true →
    SsidRead L st ∨
      (st.inTargetAdapter = true ∧ ∃ x ∈ R, lineStartsWith x "SSID" = true)

/-! ## Concrete inputs -/

/-- A name of 65536 bytes: 16384 times the four-byte character U+1F600. -/
def longName : String := ⟨List.replicate 16384 (Char.ofNat 0x1F600)⟩

/-- A line of 65536 bytes: 65536 times the letter `x`. -/
def longLine : String := ⟨List.replicate 65536 'x'⟩

/-- A profile text with the line of 65536 bytes between two profile lines. -/
def profilesAroundLongLine : String :=
  "All User Profile : A\n" ++ longLine ++ "\nAll User Profile : B\n"

/-- The world set up by `onReady` before polling starts. -/
def worldReady : World :=
  { currentState := .StateDisconnected,
    icon := .IconDisconnected,
    tooltip := "Quadmax WiFi Connector - Not Connected",
    mStatusItem := some "Status: Initializing...",
    calls := 0,
    trace := [] }

/-- A world in which the machine is connected. -/
def worldConnected : World :=
  { currentState := .StateConnected,
    icon := .IconConnected,
    tooltip := "Quadmax WiFi - Connected",
    mStatusItem := some "Status: Connected to OfficeNet",
    calls := 0,
    trace := [] }

/-- A configuration with the target network `OfficeNet` on any adapter. -/
def cfgOffice : Config :=
  { SelectedAdapter := "", SelectedNetwork := "OfficeNet", PollInterval := 5 }

/-- A configuration with the target network `HomeNet` on any adapter. -/
def cfgHome : Config :=
  { SelectedAdapter := "", SelectedNetwork := "HomeNet", PollInterval := 5 }

/-- A configuration without a target network. -/
def cfgUnset : Config :=
  { SelectedAdapter := "Wi-Fi", SelectedNetwork := "", PollInterval := 5 }

/-- Every external command fails. -/
def envFail : Exec := fun _ => none

/-- Every external command succeeds with a text that shows the network
`HomeNet` only (the adapter is connected to it). -/
def envHomeOnly : Exec := fun _ => some "Name : Wi-Fi\nState : connected\nSSID: HomeNet\n"

/-- The adapter is and stays connected to `HomeNet`; the scan shows `HomeNet`
and `OfficeNet`; the connect command is accepted. -/
def envStaysHome : Exec := fun n =>
  if n = 1 then some "SSID: HomeNet\nSSID: OfficeNet\n"
  else if n = 2 then some ""
  else some "Name : Wi-Fi\nState : connected\nSSID: HomeNet\n"

/-! ## Lemmas on the state machine -/

theorem updateState_currentState (cfg : Config) (state : ConnectionState) (msg : String)
    (w : World) : (updateState cfg state msg w).currentState = state := by
  cases state <;> cases h : w.mStatusItem <;>
    by_cases h1 : w.currentState = .StateConnected <;>
    by_cases h2 : cfg.SelectedNetwork = "" <;>
    simp [updateState, showNotification, h, h1, h2]

theorem updateState_calls (cfg : Config) (state : ConnectionState) (msg : String)
    (w : World) : (updateState cfg state msg w).calls = w.calls := by
  cases state <;> cases h : w.mStatusItem <;>
    by_cases h1 : w.currentState = .StateConnected <;>
    by_cases h2 : cfg.SelectedNetwork = "" <;>
    simp [updateState, showNotification, h, h1, h2]

theorem updateState_mStatusItem (cfg : Config) (state : ConnectionState) (msg : String)
    (w : World) :
    (updateState cfg state msg w).mStatusItem = w.mStatusItem.map fun _ => "Status: " ++ msg := by
  cases state <;> cases h : w.mStatusItem <;>
    by_cases h1 : w.currentState = .StateConnected <;>
    by_cases h2 : cfg.SelectedNetwork = "" <;>
    simp [updateState, showNotification, h, h1, h2]

theorem updateState_trace (cfg : Config) (state : ConnectionState) (msg : String)
    (w : World) :
    (updateState cfg state msg w).trace =
      w.trace ++ Event.update state msg ::
        (if w.currentState = .StateConnected ∧ state = .StateDisconnected ∧
            cfg.SelectedNetwork ≠ "" then
          [Event.notify "Disconnected" ("Lost connection to " ++ cfg.SelectedNetwork)]
        else []) := by
  cases state <;> cases h : w.mStatusItem <;>
    by_cases h1 : w.currentState = .StateConnected <;>
    by_cases h2 : cfg.SelectedNetwork = "" <;>
    simp [updateState, showNotification, h, h1, h2]

theorem connectedJustified_split (cfg : Config) (es : List Event) :
    ∀ pre0 : List Event, connectedJustified cfg pre0 es →
      ∀ (pre post : List Event) (msg : String),
        es = pre ++ Event.update .StateConnected msg :: post →
        statusJustifies cfg (pre0 ++ pre) := by
  induction es with
  | nil => intro pre0 _ pre post msg h; simp at h
  | cons e es ih =>
    intro pre0 hj pre post msg h
    obtain ⟨h1, h2⟩ := hj
    cases pre with
    | nil =>
      simp only [List.nil_append, List.cons.injEq] at h
      simpa using h1 msg h.1
    | cons p pre =>
      simp only [List.cons_append, List.cons.injEq] at h
      have := ih (pre0 ++ [e]) h2 pre post msg h.2
      simpa [h.1] using this

theorem checkAndConnectStep5_trace (cfg : Config) (env : Exec) (w : World) :
    (checkAndConnectStep5 cfg env w).trace = w.trace ++ step5Events cfg env w.calls := by
  unfold checkAndConnectStep5 step5Events
  cases h0 : env w.calls with
  | none =>
    simp [Connect, runCmd, showNotification, updateState_trace, updateState_calls,
      updateState_currentState, h0]
  | some c =>
    cases h1 : env (w.calls + 1) with
    | none =>
      simp [Connect, GetConnectionStatus, runCmd, showNotification, updateState_trace,
        updateState_calls, updateState_currentState, h0, h1, verified]
    | some o =>
      by_cases hv : (parseConnectionStatus cfg.SelectedAdapter o).Connected = true ∧
          (parseConnectionStatus cfg.SelectedAdapter o).SSID = cfg.SelectedNetwork
      · simp [Connect, GetConnectionStatus, runCmd, showNotification, updateState_trace,
          updateState_calls, updateState_currentState, h0, h1, verified, hv]
      · simp [Connect, GetConnectionStatus, runCmd, showNotification, updateState_trace,
          updateState_calls, updateState_currentState, h0, h1, verified, hv]

theorem checkAndConnectStep4_trace (cfg : Config) (env : Exec) (w : World) :
    (checkAndConnectStep4 cfg env w).trace =
      w.trace ++ step4Events cfg env w.currentState w.calls := by
  unfold checkAndConnectStep4 step4Events
  cases h0 : env w.calls with
  | none =>
    simp [IsNetworkAvailable, ScanNetworks, runCmd, updateState_trace, h0, lostEvents]
  | some o =>
    cases ha : (parseNetworks o).any fun network => network.SSID = cfg.SelectedNetwork
    · simp [IsNetworkAvailable, ScanNetworks, runCmd, updateState_trace, h0, ha, lostEvents]
    · simp [IsNetworkAvailable, ScanNetworks, runCmd, checkAndConnectStep5_trace, h0, ha]

theorem checkAndConnect_trace (cfg : Config) (env : Exec) (w : World) :
    (checkAndConnect cfg env w).trace = w.trace ++ tickEvents cfg env w.currentState w.calls := by
  unfold checkAndConnect tickEvents
  by_cases hT : cfg.SelectedNetwork = ""
  · simp [hT, updateState_trace]
  · cases h0 : env w.calls with
    | none => simp [hT, GetConnectionStatus, runCmd, updateState_trace, h0, lostEvents]
    | some o =>
      by_cases hv : (parseConnectionStatus cfg.SelectedAdapter o).Connected = true ∧
          (parseConnectionStatus cfg.SelectedAdapter o).SSID = cfg.SelectedNetwork
      · simp [hT, GetConnectionStatus, runCmd, updateState_trace, h0, verified, hv]
      · simp [hT, GetConnectionStatus, runCmd, checkAndConnectStep4_trace, h0, verified, hv]

theorem eventsSince_of_trace (w w1 : World) (es : List Event) (h : w1.trace = w.trace ++ es) :
    eventsSince w w1 = es := by
  simp [eventsSince, h]

theorem attemptConnection_eq_step5 (cfg : Config) (env : Exec) (w : World)
    (hT : cfg.SelectedNetwork ≠ "") :
    attemptConnection cfg env w = checkAndConnectStep5 cfg env w := by
  simp [attemptConnection, checkAndConnectStep5, hT]

theorem attemptConnection_trace (cfg : Config) (env : Exec) (w : World) :
    (attemptConnection cfg env w).trace =
      w.trace ++
        if cfg.SelectedNetwork = "" then
          [Event.notify "Error" "No target network configured. Open Settings to configure."]
        else step5Events cfg env w.calls := by
  by_cases hT : cfg.SelectedNetwork = ""
  · simp [attemptConnection, hT, showNotification]
  · rw [attemptConnection_eq_step5 cfg env w hT, checkAndConnectStep5_trace]
    simp [hT]

theorem step5Events_justified (cfg : Config) (env : Exec) (n : Nat) (pre : List Event) :
    connectedJustified cfg pre (step5Events cfg env n) := by
  unfold step5Events
  cases h0 : env n with
  | none => simp [connectedJustified]
  | some c =>
    cases h1 : env (n + 1) with
    | none => simp [connectedJustified, verified]
    | some o =>
      by_cases hv : (parseConnectionStatus cfg.SelectedAdapter o).Connected = true ∧
          (parseConnectionStatus cfg.SelectedAdapter o).SSID = cfg.SelectedNetwork
      · simp [connectedJustified, verified, hv, statusJustifies, lastStatusQuery]
      · simp [connectedJustified, verified, hv]

theorem lostEvents_justified (cfg : Config) (prev : ConnectionState) (pre : List Event) :
    connectedJustified cfg pre (lostEvents cfg prev) := by
  unfold lostEvents
  split <;> simp [connectedJustified]

theorem step4Events_justified (cfg : Config) (env : Exec) (prev : ConnectionState) (n : Nat)
    (pre : List Event) : connectedJustified cfg pre (step4Events cfg env prev n) := by
  unfold step4Events
  cases h0 : env n with
  | none => simp [connectedJustified, lostEvents_justified]
  | some o =>
    by_cases ha : ∃ x ∈ parseNetworks o, x.SSID = cfg.SelectedNetwork
    · simp [connectedJustified, step5Events_justified, ha]
    · simp [connectedJustified, lostEvents_justified, ha]

theorem tickEvents_justified (cfg : Config) (env : Exec) (prev : ConnectionState) (n : Nat) :
    connectedJustified cfg [] (tickEvents cfg env prev n) := by
  unfold tickEvents
  by_cases hT : cfg.SelectedNetwork = ""
  · simp [hT, connectedJustified]
  · cases h0 : env n with
    | none => simp [hT, connectedJustified, lostEvents_justified]
    | some o =>
      by_cases hv : (parseConnectionStatus cfg.SelectedAdapter o).Connected = true ∧
          (parseConnectionStatus cfg.SelectedAdapter o).SSID = cfg.SelectedNetwork
      · simp [hT, connectedJustified, verified, hv, statusJustifies, lastStatusQuery]
      · have hv1 : verified cfg (some o) = false := by
          simp only [verified, Bool.and_eq_false_imp, decide_eq_false_iff_not]
          exact fun hc hs => hv ⟨hc, hs⟩
        simp only [hT, hv1, ↓reduceIte, Bool.false_eq_true]
        exact ⟨by simp, step4Events_justified _ _ _ _ _⟩

theorem step5Events_failed (cfg : Config) (env : Exec) (n : Nat) (message : String)
    (h : Event.notify "Connection Failed" message ∈ step5Events cfg env n) :
    Event.exec (connectArgv cfg.SelectedAdapter cfg.SelectedNetwork) none ∈
      step5Events cfg env n := by
  unfold step5Events at h ⊢
  cases h0 : env n with
  | none => simp
  | some c =>
    rw [h0] at h
    cases hv : verified cfg (env (n + 1)) <;> simp [hv] at h

theorem lostEvents_failed (cfg : Config) (prev : ConnectionState) (message : String) :
    Event.notify "Connection Failed" message ∉ lostEvents cfg prev := by
  unfold lostEvents
  split <;> simp

theorem step4Events_failed (cfg : Config) (env : Exec) (prev : ConnectionState) (n : Nat)
    (message : String)
    (h : Event.notify "Connection Failed" message ∈ step4Events cfg env prev n) :
    Event.exec (connectArgv cfg.SelectedAdapter cfg.SelectedNetwork) none ∈
      step4Events cfg env prev n := by
  unfold step4Events at h ⊢
  cases h0 : env n with
  | none =>
    rw [h0] at h
    simp [lostEvents_failed] at h
  | some o =>
    rw [h0] at h
    by_cases ha : ∃ x ∈ parseNetworks o, x.SSID = cfg.SelectedNetwork
    · simp only [List.any_eq_true, decide_eq_true_eq, ha, ↓reduceIte, List.mem_cons,
        reduceCtorEq, false_or] at h ⊢
      exact Or.inr (step5Events_failed cfg env _ message h)
    · simp [ha, lostEvents_failed] at h

theorem tickEvents_failed (cfg : Config) (env : Exec) (prev : ConnectionState) (n : Nat)
    (message : String)
    (h : Event.notify "Connection Failed" message ∈ tickEvents cfg env prev n) :
    Event.exec (connectArgv cfg.SelectedAdapter cfg.SelectedNetwork) none ∈
      tickEvents cfg env prev n := by
  unfold tickEvents at h ⊢
  by_cases hT : cfg.SelectedNetwork = ""
  · simp [hT] at h
  · cases h0 : env n with
    | none =>
      rw [h0] at h
      simp [hT, lostEvents_failed] at h
    | some o =>
      rw [h0] at h
      cases hv : verified cfg (some o)
      · simp only [hT, hv, ↓reduceIte, Bool.false_eq_true, List.mem_cons, reduceCtorEq,
          false_or] at h ⊢
        exact Or.inr (step4Events_failed cfg env prev _ message h)
      · simp [hT, hv] at h

/-! ## The claims on the state machine -/

/-- C3: when the configured `selectedNetwork` is empty, a tick of
`checkAndConnect` leaves the machine in state `Disconnected` with the message
"No network configured", whatever the prior state and the outcomes of the
external commands, and runs no external command: its only side effect is
that update. -/
theorem checkAndConnect_no_network (cfg : Config) (env : Exec) (w : World)
    (h : cfg.SelectedNetwork = "") :
    (checkAndConnect cfg env w).currentState = .StateDisconnected ∧
    (checkAndConnect cfg env w).mStatusItem =
      w.mStatusItem.map (fun _ => "Status: No network configured") ∧
    eventsSince w (checkAndConnect cfg env w) =
      [Event.update .StateDisconnected "No network configured"] ∧
    (checkAndConnect cfg env w).calls = w.calls := by
  simp [checkAndConnect, h, eventsSince, updateState_currentState, updateState_mStatusItem,
    updateState_trace, updateState_calls]

/-- C3, at a machine that was connected, with every command failing. -/
theorem checkAndConnect_no_network_witness :
    cfgUnset.SelectedNetwork = "" ∧
    (checkAndConnect cfgUnset envFail worldConnected).currentState = .StateDisconnected ∧
    (checkAndConnect cfgUnset envFail worldConnected).mStatusItem =
      worldConnected.mStatusItem.map (fun _ => "Status: No network configured") ∧
    eventsSince worldConnected (checkAndConnect cfgUnset envFail worldConnected) =
      [Event.update .StateDisconnected "No network configured"] ∧
    (checkAndConnect cfgUnset envFail worldConnected).calls = worldConnected.calls :=
  ⟨rfl, checkAndConnect_no_network cfgUnset envFail worldConnected rfl⟩

/-- C5: after `updateState(new, msg)` the machine state is `new`, and a
notification is emitted by the call if and only if the previous state was
`Connected`, `new` is `Disconnected` and `selectedNetwork` is not empty; the
notification is then the "Disconnected" / "Lost connection to ..." one. -/
theorem updateState_notifies (cfg : Config) (new : ConnectionState) (msg : String)
    (w : World) :
    (updateState cfg new msg w).currentState = new ∧
    ((∃ title message,
        Event.notify title message ∈ eventsSince w (updateState cfg new msg w)) ↔
      (w.currentState = .StateConnected ∧ new = .StateDisconnected ∧
        cfg.SelectedNetwork ≠ "")) ∧
    (Event.notify "Disconnected" ("Lost connection to " ++ cfg.SelectedNetwork) ∈
        eventsSince w (updateState cfg new msg w) ↔
      (w.currentState = .StateConnected ∧ new = .StateDisconnected ∧
        cfg.SelectedNetwork ≠ "")) ∧
    (∀ title message,
      Event.notify title message ∈ eventsSince w (updateState cfg new msg w) →
      title = "Disconnected" ∧ message = "Lost connection to " ++ cfg.SelectedNetwork) := by
  refine ⟨updateState_currentState cfg new msg w, ?_, ?_, ?_⟩ <;>
    by_cases hc : w.currentState = .StateConnected ∧ new = .StateDisconnected ∧
        cfg.SelectedNetwork ≠ "" <;>
    simp [eventsSince, updateState_trace, hc]

/-- C4: in a run of `checkAndConnect` and in a run of `attemptConnection`,
whenever the machine state is set to `Connected`, the most recent status
query of that run succeeded and returned connected = true with the ssid of
`selectedNetwork`. -/
theorem connected_only_after_status (cfg : Config) (env : Exec) (w : World) :
    (∀ (pre post : List Event) (msg : String),
      eventsSince w (checkAndConnect cfg env w) =
        pre ++ Event.update .StateConnected msg :: post →
      statusJustifies cfg pre) ∧
    (∀ (pre post : List Event) (msg : String),
      eventsSince w (attemptConnection cfg env w) =
        pre ++ Event.update .StateConnected msg :: post →
      statusJustifies cfg pre) := by
  constructor
  · intro pre post msg h
    rw [eventsSince_of_trace w _ _ (checkAndConnect_trace cfg env w)] at h
    simpa using connectedJustified_split cfg _ [] (tickEvents_justified cfg env _ _) pre post msg h
  · intro pre post msg h
    rw [eventsSince_of_trace w _ _ (attemptConnection_trace cfg env w)] at h
    by_cases hT : cfg.SelectedNetwork = ""
    · simp only [hT, if_true] at h
      have : connectedJustified cfg []
          [Event.notify "Error" "No target network configured. Open Settings to configure."] := by
        simp [connectedJustified]
      simpa using connectedJustified_split cfg _ [] this pre post msg h
    · simp only [hT, if_false] at h
      simpa using connectedJustified_split cfg _ [] (step5Events_justified cfg env _ []) pre post
        msg h

/-- C4, at a tick that finds the adapter connected to the target `HomeNet`:
the run sets `Connected` right after the status query that justifies it. -/
theorem connected_only_after_status_witness :
    eventsSince worldReady (checkAndConnect cfgHome envHomeOnly worldReady) =
      [Event.exec interfacesArgv (some "Name : Wi-Fi\nState : connected\nSSID: HomeNet\n")] ++
        Event.update .StateConnected "Connected to HomeNet" :: [] ∧
    statusJustifies cfgHome
      [Event.exec interfacesArgv (some "Name : Wi-Fi\nState : connected\nSSID: HomeNet\n")] :=
  ⟨by decide,
    (connected_only_after_status cfgHome envHomeOnly worldReady).1
      [Event.exec interfacesArgv (some "Name : Wi-Fi\nState : connected\nSSID: HomeNet\n")] []
      "Connected to HomeNet" (by decide)⟩

/-- C6, as stated, fails: with the target `OfficeNet`, when every command
fails `attemptConnection` runs the connect command and ends with
"Connection failed" where the tick from step 4 ends with "Error scanning
networks", and when only `HomeNet` is visible it still runs the connect
command where the tick from step 4 ends with "OfficeNet not in range". -/
theorem attemptConnection_not_from_step4 :
    attemptConnection cfgOffice envFail worldReady ≠
      checkAndConnectStep4 cfgOffice envFail worldReady ∧
    attemptConnection cfgOffice envHomeOnly worldReady ≠
      checkAndConnectStep4 cfgOffice envHomeOnly worldReady ∧
    eventsSince worldReady (attemptConnection cfgOffice envFail worldReady) =
      [Event.update .StateSearching "Connecting to OfficeNet...",
       Event.exec ["netsh", "wlan", "connect", "name=OfficeNet"] none,
       Event.update .StateDisconnected "Connection failed",
       Event.notify "Connection Failed" "Could not connect to OfficeNet"] ∧
    eventsSince worldReady (checkAndConnectStep4 cfgOffice envFail worldReady) =
      [Event.exec ["netsh", "wlan", "show", "networks"] none,
       Event.update .StateDisconnected "Error scanning networks"] ∧
    eventsSince worldReady (attemptConnection cfgOffice envHomeOnly worldReady) =
      [Event.update .StateSearching "Connecting to OfficeNet...",
       Event.exec ["netsh", "wlan", "connect", "name=OfficeNet"]
         (some "Name : Wi-Fi\nState : connected\nSSID: HomeNet\n"),
       Event.sleep 2,
       Event.exec ["netsh", "wlan", "show", "interfaces"]
         (some "Name : Wi-Fi\nState : connected\nSSID: HomeNet\n"),
       Event.update .StateDisconnected "Connection verification failed"] ∧
    eventsSince worldReady (checkAndConnectStep4 cfgOffice envHomeOnly worldReady) =
      [Event.exec ["netsh", "wlan", "show", "networks"]
         (some "Name : Wi-Fi\nState : connected\nSSID: HomeNet\n"),
       Event.update .StateDisconnected "OfficeNet not in range"] := by
  decide

/-- C6, amended: for a non-empty `selectedNetwork` and every outcome of the
external commands, `attemptConnection` produces the same state transitions,
external commands and notifications as the procedure of `checkAndConnect`
started at step 5 (the update to `Searching` and the connect command): it
makes no visibility check, runs no scan, and always runs the connect
command. -/
theorem attemptConnection_from_step5 (cfg : Config) (env : Exec) (w : World)
    (hT : cfg.SelectedNetwork ≠ "") :
    attemptConnection cfg env w = checkAndConnectStep5 cfg env w ∧
    (∀ out, Event.exec (networksArgv cfg.SelectedAdapter) out ∉
      eventsSince w (attemptConnection cfg env w)) ∧
    (∃ rest, eventsSince w (attemptConnection cfg env w) =
      Event.update .StateSearching ("Connecting to " ++ cfg.SelectedNetwork ++ "...") ::
      Event.exec (connectArgv cfg.SelectedAdapter cfg.SelectedNetwork) (env w.calls) ::
      rest) := by
  refine ⟨attemptConnection_eq_step5 cfg env w hT, ?_, ?_⟩
  · intro out
    rw [eventsSince_of_trace w _ _ (attemptConnection_trace cfg env w)]
    simp only [hT, ↓reduceIte, step5Events]
    by_cases ha : cfg.SelectedAdapter = "" <;>
      cases env w.calls <;> cases verified cfg (env (w.calls + 1)) <;>
      simp [networksArgv, connectArgv, interfacesArgv, ha]
  · rw [eventsSince_of_trace w _ _ (attemptConnection_trace cfg env w)]
    simp only [hT, ↓reduceIte, step5Events]
    exact ⟨_, rfl⟩

/-- C6 amended, at the target `OfficeNet` when every command fails. -/
theorem attemptConnection_from_step5_witness :
    cfgOffice.SelectedNetwork ≠ "" ∧
    attemptConnection cfgOffice envFail worldReady =
      checkAndConnectStep5 cfgOffice envFail worldReady :=
  ⟨by decide, (attemptConnection_from_step5 cfgOffice envFail worldReady (by decide)).1⟩

/-- C9: in a tick of `checkAndConnect` with a non-empty target `T`, when the
first status query succeeds and is not (connected with ssid = `T`), the scan
contains `T`, the connect command succeeds and the status query after the
settle delay fails or is not (connected with ssid = `T`), the final state is
`Disconnected` with the message "Connection verification failed" and no
notification is emitted; and in every tick, a "Connection Failed" notification
is emitted only when the connect command was run and failed. -/
theorem checkAndConnect_verification_failed (cfg : Config) (env : Exec) (w : World)
    (s0 sc c : String)
    (hT : cfg.SelectedNetwork ≠ "")
    (h0 : env w.calls = some s0)
    (hs : ¬((parseConnectionStatus cfg.SelectedAdapter s0).Connected = true ∧
        (parseConnectionStatus cfg.SelectedAdapter s0).SSID = cfg.SelectedNetwork))
    (h1 : env (w.calls + 1) = some sc)
    (hin : ∃ network ∈ parseNetworks sc, network.SSID = cfg.SelectedNetwork)
    (h2 : env (w.calls + 2) = some c)
    (hv : ∀ s3, env (w.calls + 3) = some s3 →
      ¬((parseConnectionStatus cfg.SelectedAdapter s3).Connected = true ∧
        (parseConnectionStatus cfg.SelectedAdapter s3).SSID = cfg.SelectedNetwork)) :
    (checkAndConnect cfg env w).currentState = .StateDisconnected ∧
    (checkAndConnect cfg env w).mStatusItem =
      w.mStatusItem.map (fun _ => "Status: Connection verification failed") ∧
    eventsSince w (checkAndConnect cfg env w) =
      [Event.exec interfacesArgv (some s0),
       Event.exec (networksArgv cfg.SelectedAdapter) (some sc),
       Event.update .StateSearching ("Connecting to " ++ cfg.SelectedNetwork ++ "..."),
       Event.exec (connectArgv cfg.SelectedAdapter cfg.SelectedNetwork) (some c),
       Event.sleep 2,
       Event.exec interfacesArgv (env (w.calls + 3)),
       Event.update .StateDisconnected "Connection verification failed"] ∧
    (∀ title message,
      Event.notify title message ∉ eventsSince w (checkAndConnect cfg env w)) ∧
    (∀ (env1 : Exec) (w1 : World) (message : String),
      Event.notify "Connection Failed" message ∈
        eventsSince w1 (checkAndConnect cfg env1 w1) →
      Event.exec (connectArgv cfg.SelectedAdapter cfg.SelectedNetwork) none ∈
        eventsSince w1 (checkAndConnect cfg env1 w1)) := by
  have hs0 : verified cfg (some s0) = false := by
    simp only [verified, Bool.and_eq_false_imp, decide_eq_false_iff_not]
    exact fun hc hs1 => hs ⟨hc, hs1⟩
  have hv3 : verified cfg (env (w.calls + 3)) = false := by
    cases h3 : env (w.calls + 3) with
    | none => rfl
    | some s3 =>
      simp only [verified, Bool.and_eq_false_imp, decide_eq_false_iff_not]
      exact fun hc hs1 => hv s3 h3 ⟨hc, hs1⟩
  have hev : eventsSince w (checkAndConnect cfg env w) =
      [Event.exec interfacesArgv (some s0),
       Event.exec (networksArgv cfg.SelectedAdapter) (some sc),
       Event.update .StateSearching ("Connecting to " ++ cfg.SelectedNetwork ++ "..."),
       Event.exec (connectArgv cfg.SelectedAdapter cfg.SelectedNetwork) (some c),
       Event.sleep 2,
       Event.exec interfacesArgv (env (w.calls + 3)),
       Event.update .StateDisconnected "Connection verification failed"] := by
    rw [eventsSince_of_trace w _ _ (checkAndConnect_trace cfg env w)]
    simp [tickEvents, step4Events, step5Events, hT, h0, hs0, h1, hin, h2, hv3, Nat.add_assoc]
  have hb0 := hs0
  have hav : ((parseNetworks sc).any fun network => network.SSID = cfg.SelectedNetwork) = true := by
    simpa using hin
  simp only [verified] at hb0
  refine ⟨?_, ?_, hev, ?_, ?_⟩
  · cases h3 : env (w.calls + 3) with
    | none =>
      simp [checkAndConnect, checkAndConnectStep4, checkAndConnectStep5, GetConnectionStatus,
        IsNetworkAvailable, ScanNetworks, Connect, runCmd, updateState_currentState,
        updateState_calls, hT, h0, hb0, h1, hav, h2, h3, Nat.add_assoc]
    | some s3 =>
      have hb3 := hv3
      simp only [h3, verified] at hb3
      simp [checkAndConnect, checkAndConnectStep4, checkAndConnectStep5, GetConnectionStatus,
        IsNetworkAvailable, ScanNetworks, Connect, runCmd, updateState_currentState,
        updateState_calls, hT, h0, hb0, h1, hav, h2, h3, hb3, Nat.add_assoc]
  · cases h3 : env (w.calls + 3) with
    | none =>
      simp [checkAndConnect, checkAndConnectStep4, checkAndConnectStep5, GetConnectionStatus,
        IsNetworkAvailable, ScanNetworks, Connect, runCmd, updateState_mStatusItem,
        updateState_calls, hT, h0, hb0, h1, hav, h2, h3, Nat.add_assoc]
      cases w.mStatusItem <;> simp
    | some s3 =>
      have hb3 := hv3
      simp only [h3, verified] at hb3
      simp [checkAndConnect, checkAndConnectStep4, checkAndConnectStep5, GetConnectionStatus,
        IsNetworkAvailable, ScanNetworks, Connect, runCmd, updateState_mStatusItem,
        updateState_calls, hT, h0, hb0, h1, hav, h2, h3, hb3, Nat.add_assoc]
      cases w.mStatusItem <;> simp
  · intro title message
    rw [hev]
    simp
  · intro env1 w1 message
    rw [eventsSince_of_trace w1 _ _ (checkAndConnect_trace cfg env1 w1)]
    exact tickEvents_failed cfg env1 _ _ message

/-- C9, for the target `OfficeNet` while the adapter stays on `HomeNet`. -/
theorem checkAndConnect_verification_failed_witness :
    cfgOffice.SelectedNetwork ≠ "" ∧
    (∃ network ∈ parseNetworks "SSID: HomeNet\nSSID: OfficeNet\n",
      network.SSID = cfgOffice.SelectedNetwork) ∧
    (checkAndConnect cfgOffice envStaysHome worldReady).currentState = .StateDisconnected ∧
    (checkAndConnect cfgOffice envStaysHome worldReady).mStatusItem =
      some "Status: Connection verification failed" ∧
    (∀ title message, Event.notify title message ∉
      eventsSince worldReady (checkAndConnect cfgOffice envStaysHome worldReady)) :=
  have h := checkAndConnect_verification_failed cfgOffice envStaysHome worldReady
    "Name : Wi-Fi\nState : connected\nSSID: HomeNet\n" "SSID: HomeNet\nSSID: OfficeNet\n" ""
    (by decide) (by decide) (by decide) (by decide) (by decide) (by decide)
    (fun s3 h3 => by
      have e : envStaysHome (worldReady.calls + 3) =
          some "Name : Wi-Fi\nState : connected\nSSID: HomeNet\n" := by decide
      rw [e] at h3
      cases h3
      decide)
  ⟨by decide, by decide, h.1, h.2.1, h.2.2.2.1⟩

/-- C10: in a tick of `checkAndConnect` with a non-empty target `T`, when the
status query succeeds and is not (connected with ssid = `T`) and the scan
succeeds with a list of networks that does not contain `T`, the final state is
`Disconnected` with the message "T not in range", the machine is never set to
`Searching` and no connect command is run: the tick runs the status query and
the scan, and makes that one update (with the lost-connection notification
when the machine was connected before). -/
theorem checkAndConnect_not_in_range (cfg : Config) (env : Exec) (w : World)
    (s0 sc : String)
    (hT : cfg.SelectedNetwork ≠ "")
    (h0 : env w.calls = some s0)
    (hs : ¬((parseConnectionStatus cfg.SelectedAdapter s0).Connected = true ∧
        (parseConnectionStatus cfg.SelectedAdapter s0).SSID = cfg.SelectedNetwork))
    (h1 : env (w.calls + 1) = some sc)
    (hout : ∀ network ∈ parseNetworks sc, network.SSID ≠ cfg.SelectedNetwork) :
    (checkAndConnect cfg env w).currentState = .StateDisconnected ∧
    (checkAndConnect cfg env w).mStatusItem =
      w.mStatusItem.map (fun _ => "Status: " ++ (cfg.SelectedNetwork ++ " not in range")) ∧
    eventsSince w (checkAndConnect cfg env w) =
      [Event.exec interfacesArgv (some s0),
       Event.exec (networksArgv cfg.SelectedAdapter) (some sc),
       Event.update .StateDisconnected (cfg.SelectedNetwork ++ " not in range")] ++
      (if w.currentState = .StateConnected then
        [Event.notify "Disconnected" ("Lost connection to " ++ cfg.SelectedNetwork)]
      else []) ∧
    (∀ msg, Event.update .StateSearching msg ∉ eventsSince w (checkAndConnect cfg env w)) ∧
    (∀ out, Event.exec (connectArgv cfg.SelectedAdapter cfg.SelectedNetwork) out ∉
      eventsSince w (checkAndConnect cfg env w)) ∧
    (checkAndConnect cfg env w).calls = w.calls + 2 := by
  have hb0 : ((parseConnectionStatus cfg.SelectedAdapter s0).Connected &&
      decide ((parseConnectionStatus cfg.SelectedAdapter s0).SSID = cfg.SelectedNetwork)) =
      false := by
    simp only [Bool.and_eq_false_imp, decide_eq_false_iff_not]
    exact fun hc hs1 => hs ⟨hc, hs1⟩
  have hav : ((parseNetworks sc).any fun network => network.SSID = cfg.SelectedNetwork) =
      false := by
    simpa using hout
  have hev : eventsSince w (checkAndConnect cfg env w) =
      [Event.exec interfacesArgv (some s0),
       Event.exec (networksArgv cfg.SelectedAdapter) (some sc),
       Event.update .StateDisconnected (cfg.SelectedNetwork ++ " not in range")] ++
      (if w.currentState = .StateConnected then
        [Event.notify "Disconnected" ("Lost connection to " ++ cfg.SelectedNetwork)]
      else []) := by
    rw [eventsSince_of_trace w _ _ (checkAndConnect_trace cfg env w)]
    have hout1 : ¬∃ x ∈ parseNetworks sc, x.SSID = cfg.SelectedNetwork := by
      rintro ⟨x, hx, hx1⟩
      exact hout x hx hx1
    simp [tickEvents, step4Events, lostEvents, hT, h0, verified, hb0, h1, hout1]
  refine ⟨?_, ?_, hev, ?_, ?_, ?_⟩
  · simp [checkAndConnect, checkAndConnectStep4, GetConnectionStatus, IsNetworkAvailable,
      ScanNetworks, runCmd, updateState_currentState, hT, h0, hb0, h1, hav]
  · simp [checkAndConnect, checkAndConnectStep4, GetConnectionStatus, IsNetworkAvailable,
      ScanNetworks, runCmd, updateState_mStatusItem, hT, h0, hb0, h1, hav]
  · intro msg
    rw [hev]
    split <;> simp
  · intro out
    rw [hev]
    by_cases ha : cfg.SelectedAdapter = "" <;>
      split <;> simp [networksArgv, connectArgv, interfacesArgv, ha]
  · simp [checkAndConnect, checkAndConnectStep4, GetConnectionStatus, IsNetworkAvailable,
      ScanNetworks, runCmd, updateState_calls, hT, h0, hb0, h1, hav]

/-- C10, for the target `OfficeNet` when only `HomeNet` is visible. -/
theorem checkAndConnect_not_in_range_witness :
    cfgOffice.SelectedNetwork ≠ "" ∧
    parseNetworks "Name : Wi-Fi\nState : connected\nSSID: HomeNet\n" = [{ SSID := "HomeNet" }] ∧
    (checkAndConnect cfgOffice envHomeOnly worldReady).currentState = .StateDisconnected ∧
    (checkAndConnect cfgOffice envHomeOnly worldReady).mStatusItem =
      some "Status: OfficeNet not in range" :=
  have h := checkAndConnect_not_in_range cfgOffice envHomeOnly worldReady
    "Name : Wi-Fi\nState : connected\nSSID: HomeNet\n"
    "Name : Wi-Fi\nState : connected\nSSID: HomeNet\n"
    (by decide) (by decide) (by decide) (by decide) (by decide)
  ⟨by decide, by decide, h.1, h.2.1⟩

/-! ## Lemmas on the library functions -/

theorem rdropWhile_cons_eq (p : Char → Bool) (c : Char) (l : List Char) :
    (c :: l).rdropWhile p =
      if l.rdropWhile p = [] then (if p c then [] else [c]) else c :: l.rdropWhile p := by
  induction l using List.reverseRecOn generalizing c with
  | nil => simp [List.rdropWhile_singleton]
  | append_singleton l a ih =>
    rw [← List.cons_append, List.rdropWhile_concat, List.rdropWhile_concat]
    by_cases ha : p a = true
    · simp only [ha, if_true]
      exact ih c
    · simp [ha]

theorem dropWhile_rdropWhile (p : Char → Bool) (l : List Char) :
    (l.rdropWhile p).dropWhile p = (l.dropWhile p).rdropWhile p := by
  induction l with
  | nil => simp
  | cons c l ih =>
    rw [rdropWhile_cons_eq]
    by_cases hc : p c = true
    · by_cases hl : l.rdropWhile p = []
      · have hall : ∀ x ∈ l, p x = true := List.rdropWhile_eq_nil_iff.mp hl
        have : l.dropWhile p = [] := by simpa using hall
        simp [hc, hl, this]
      · simp [hc, hl, ih]
    · by_cases hl : l.rdropWhile p = []
      · simp [hc, hl, rdropWhile_cons_eq]
      · simp [hc, hl, rdropWhile_cons_eq]

theorem trimChars_eq (l : List Char) :
    trimChars l = (l.rdropWhile isSpace).dropWhile isSpace := by
  rw [dropWhile_rdropWhile]
  rfl

theorem rdropWhile_dropCR (l : List Char) :
    (dropCR l).rdropWhile isSpace = l.rdropWhile isSpace := by
  unfold dropCR
  split
  · next h =>
    obtain ⟨ys, rfl⟩ := List.getLast?_eq_some_iff.mp h
    rw [List.dropLast_concat, List.rdropWhile_concat_pos _ _ _ (by decide)]
  · rfl

theorem trimChars_dropCR (l : List Char) : trimChars (dropCR l) = trimChars l := by
  rw [trimChars_eq, trimChars_eq, rdropWhile_dropCR]

theorem trimChars_rdropWhile (l : List Char) :
    trimChars (l.rdropWhile isSpace) = trimChars l := by
  rw [trimChars_eq, trimChars_eq, List.rdropWhile_idempotent]

theorem trimChars_cons_space (c : Char) (l : List Char) (hc : isSpace c = true) :
    trimChars (c :: l) = trimChars l := by
  simp [trimChars, hc]

theorem rdropWhile_key (k t : List Char) :
    (k ++ ':' :: t).rdropWhile isSpace = k ++ ':' :: t.rdropWhile isSpace := by
  induction k with
  | nil =>
    rw [List.nil_append, rdropWhile_cons_eq]
    split
    · next h => simp [h, show isSpace ':' = false by decide]
    · rfl
  | cons c k ih =>
    rw [List.cons_append, rdropWhile_cons_eq, ih]
    simp

/-- The trimmed form of a scanned line `key : value`, for a key that starts
with a character that is not white space. -/
theorem trimChars_key (c : Char) (k t : List Char) (hc : isSpace c = false) :
    trimChars (dropCR (c :: k ++ ':' :: t)) = c :: k ++ ':' :: t.rdropWhile isSpace := by
  rw [trimChars_dropCR, trimChars, List.cons_append, List.dropWhile_cons_of_neg (by simp [hc]),
    ← List.cons_append, rdropWhile_key]

theorem splitColon_key (k y : List Char) (hk : ':' ∉ k) :
    splitColon (k ++ ':' :: y) = (k, some y) := by
  induction k with
  | nil => simp [splitColon]
  | cons c k ih =>
    have hc : c ≠ ':' := fun h => hk (by simp [h])
    have hk1 : ':' ∉ k := fun h => hk (by simp [h])
    simp [splitColon, hc, ih hk1]

theorem scanLinesFrom_line (l rest cur : List Char) (hl : '\n' ∉ l)
    (hb : String.utf8Len (cur ++ l) < MaxScanTokenSize) :
    scanLinesFrom (l ++ '\n' :: rest) cur = dropCR (cur ++ l) :: scanLinesFrom rest [] := by
  induction l generalizing cur with
  | nil =>
    rw [List.append_nil] at hb
    simp [scanLinesFrom, hb]
  | cons c l ih =>
    have hc : c ≠ '\n' := fun h => hl (by simp [h])
    have hl1 : '\n' ∉ l := fun h => hl (by simp [h])
    have hb1 : String.utf8Len ((cur ++ [c]) ++ l) < MaxScanTokenSize := by
      rw [List.append_assoc]; exact hb
    simp [scanLinesFrom, hc, ih _ hl1 hb1]

theorem scanLinesFrom_long (l rest cur : List Char) (hl : '\n' ∉ l)
    (hb : MaxScanTokenSize ≤ String.utf8Len (cur ++ l)) :
    scanLinesFrom (l ++ '\n' :: rest) cur = [] := by
  induction l generalizing cur with
  | nil =>
    rw [List.append_nil] at hb
    simp [scanLinesFrom, Nat.not_lt.mpr hb]
  | cons c l ih =>
    have hc : c ≠ '\n' := fun h => hl (by simp [h])
    have hl1 : '\n' ∉ l := fun h => hl (by simp [h])
    have hb1 : MaxScanTokenSize ≤ String.utf8Len ((cur ++ [c]) ++ l) := by
      rw [List.append_assoc]; exact hb
    simp [scanLinesFrom, hc, ih _ hl1 hb1]

theorem utf8ByteSize_eq (s : String) : s.utf8ByteSize = String.utf8Len s.data := by
  cases s; rfl

theorem utf8Len_replicate (n : Nat) (c : Char) :
    String.utf8Len (List.replicate n c) = n * c.utf8Size := by
  induction n with
  | zero => simp
  | succ n ih => simp [List.replicate_succ, ih, Nat.succ_mul]

theorem trimChars_replicate_ne_nil (n : Nat) (c : Char) (hn : 0 < n)
    (hc : isSpace c = false) : trimChars (List.replicate n c) ≠ [] := by
  obtain ⟨m, rfl⟩ : ∃ m, n = m + 1 := ⟨n - 1, by omega⟩
  intro h
  rw [trimChars, List.replicate_succ, List.dropWhile_cons_of_neg (by simp [hc])] at h
  have := List.rdropWhile_eq_nil_iff.mp h c (by simp)
  rw [hc] at this
  cases this

theorem trimChars_of_TrimSpace_empty (l : List Char) (h : TrimSpace ⟨l⟩ = "") :
    trimChars l = [] :=
  congrArg String.data h

theorem not_mem_replicate (n : Nat) (a c : Char) (h : a ≠ c) : a ∉ List.replicate n c :=
  fun hm => h (List.mem_replicate.mp hm).2

/-! ## Lemmas on the status parse -/

theorem statusName_status (adapterName : String) (st : StatusLoop) (line : String) :
    (statusName adapterName st line).status = st.status := by
  unfold statusName
  split
  · split <;> rfl
  · rfl

/-! ## Lemmas on the adapter parse -/

theorem adapterStep_names (st : AdapterLoop) (raw : String)
    (h : ∀ a ∈ st.adapters, a.Name ≠ "") : ∀ a ∈ (adapterStep st raw).adapters, a.Name ≠ "" := by
  have hf : ∀ a ∈ flushLast st, a.Name ≠ "" := by
    unfold flushLast
    by_cases hn : st.currentAdapter.Name = ""
    · simpa [hn] using h
    · intro a ha
      simp only [ne_eq, hn, not_false_eq_true, if_true, List.mem_append,
        List.mem_singleton] at ha
      rcases ha with ha | ha
      · exact h a ha
      · rw [ha]; exact hn
  unfold adapterStep
  simp only
  generalize SplitN (TrimSpace raw) = parts
  by_cases hN : HasPrefix (TrimSpace raw) "Name" = true
  · simp only [hN, if_true]
    rcases parts with _ | ⟨k, _ | ⟨v, _ | ⟨x, r⟩⟩⟩
    · exact h
    · exact h
    · exact hf
    · exact h
  · simp only [hN, Bool.false_eq_true, if_false]
    by_cases hS : HasPrefix (TrimSpace raw) "State" = true
    · simp only [hS, if_true]
      rcases parts with _ | ⟨k, _ | ⟨v, _ | ⟨x, r⟩⟩⟩
      · exact h
      · exact h
      · exact h
      · exact h
    · simp only [hS, Bool.false_eq_true, if_false]
      exact h

theorem foldl_adapterStep_names (ls : List String) :
    ∀ st : AdapterLoop, (∀ a ∈ st.adapters, a.Name ≠ "") →
      ∀ a ∈ (ls.foldl adapterStep st).adapters, a.Name ≠ "" := by
  induction ls with
  | nil => intro st h; exact h
  | cons raw rest ih => intro st h; exact ih _ (adapterStep_names st raw h)

theorem flushLast_names (st : AdapterLoop) (h : ∀ a ∈ st.adapters, a.Name ≠ "") :
    ∀ a ∈ flushLast st, a.Name ≠ "" := by
  unfold flushLast
  by_cases hn : st.currentAdapter.Name = ""
  · simpa [hn] using h
  · intro a ha
    simp only [ne_eq, hn, not_false_eq_true, if_true, List.mem_append, List.mem_singleton] at ha
    rcases ha with ha | ha
    · exact h a ha
    · rw [ha]; exact hn

theorem adapterStep_name_line (st : AdapterLoop) (name : String) :
    adapterStep st ⟨dropCR ("Name : ".data ++ name.data)⟩ =
      { adapters := flushLast st, currentAdapter := { Name := TrimSpace name, State := "" } } := by
  have ht : TrimSpace ⟨dropCR ("Name : ".data ++ name.data)⟩ =
      ⟨'N' :: ['a', 'm', 'e', ' '] ++ ':' :: (' ' :: name.data).rdropWhile isSpace⟩ :=
    congrArg String.mk (trimChars_key 'N' ['a', 'm', 'e', ' '] (' ' :: name.data) (by decide))
  have hs : splitColon ('N' :: ['a', 'm', 'e', ' '] ++
      ':' :: (' ' :: name.data).rdropWhile isSpace) =
      ('N' :: ['a', 'm', 'e', ' '], some ((' ' :: name.data).rdropWhile isSpace)) :=
    splitColon_key _ _ (by decide)
  have hv : TrimSpace ⟨(' ' :: name.data).rdropWhile isSpace⟩ = TrimSpace name := by
    show String.mk _ = String.mk _
    rw [trimChars_rdropWhile, trimChars_cons_space _ _ (by decide)]
  unfold adapterStep
  simp only [ht]
  have hp : HasPrefix ⟨'N' :: ['a', 'm', 'e', ' '] ++
      ':' :: (' ' :: name.data).rdropWhile isSpace⟩ "Name" = true := by
    simp [HasPrefix]
  simp only [hp, if_true, SplitN, hs, hv, flushLast]

theorem adapterStep_state_line (st : AdapterLoop) (state : String) :
    adapterStep st ⟨dropCR ("State : ".data ++ state.data)⟩ =
      { st with currentAdapter := { st.currentAdapter with State := TrimSpace state } } := by
  have ht : TrimSpace ⟨dropCR ("State : ".data ++ state.data)⟩ =
      ⟨'S' :: ['t', 'a', 't', 'e', ' '] ++ ':' :: (' ' :: state.data).rdropWhile isSpace⟩ :=
    congrArg String.mk (trimChars_key 'S' ['t', 'a', 't', 'e', ' '] (' ' :: state.data)
      (by decide))
  have hs : splitColon ('S' :: ['t', 'a', 't', 'e', ' '] ++
      ':' :: (' ' :: state.data).rdropWhile isSpace) =
      ('S' :: ['t', 'a', 't', 'e', ' '], some ((' ' :: state.data).rdropWhile isSpace)) :=
    splitColon_key _ _ (by decide)
  have hv : TrimSpace ⟨(' ' :: state.data).rdropWhile isSpace⟩ = TrimSpace state := by
    show String.mk _ = String.mk _
    rw [trimChars_rdropWhile, trimChars_cons_space _ _ (by decide)]
  unfold adapterStep
  simp only [ht]
  have hp : HasPrefix ⟨'S' :: ['t', 'a', 't', 'e', ' '] ++
      ':' :: (' ' :: state.data).rdropWhile isSpace⟩ "Name" = false := by
    simp [HasPrefix, List.isPrefixOf]
  have hq : HasPrefix ⟨'S' :: ['t', 'a', 't', 'e', ' '] ++
      ':' :: (' ' :: state.data).rdropWhile isSpace⟩ "State" = true := by
    simp [HasPrefix]
  simp only [hp, hq, if_true, Bool.false_eq_true, if_false, SplitN, hs, hv]

theorem scanLines_name_line (name rest : String) (hn : '\n' ∉ name.data)
    (hb : ("Name : " ++ name).utf8ByteSize < MaxScanTokenSize) :
    scanLines ("Name : " ++ name ++ "\n" ++ rest) =
      ⟨dropCR ("Name : ".data ++ name.data)⟩ :: scanLines rest := by
  have hd : ("Name : " ++ name ++ "\n" ++ rest).data =
      ("Name : ".data ++ name.data) ++ '\n' :: rest.data := by
    simp only [String.data_append, List.append_assoc]
    rfl
  have hl : '\n' ∉ "Name : ".data ++ name.data := by
    intro h
    rcases List.mem_append.mp h with h | h
    · revert h; decide
    · exact hn h
  rw [utf8ByteSize_eq, String.data_append] at hb
  unfold scanLines
  rw [hd, scanLinesFrom_line _ _ _ hl (by simpa using hb)]
  rfl

theorem scanLines_state_line (state rest : String) (hn : '\n' ∉ state.data)
    (hb : ("State : " ++ state).utf8ByteSize < MaxScanTokenSize) :
    scanLines ("State : " ++ state ++ "\n" ++ rest) =
      ⟨dropCR ("State : ".data ++ state.data)⟩ :: scanLines rest := by
  have hd : ("State : " ++ state ++ "\n" ++ rest).data =
      ("State : ".data ++ state.data) ++ '\n' :: rest.data := by
    simp only [String.data_append, List.append_assoc]
    rfl
  have hl : '\n' ∉ "State : ".data ++ state.data := by
    intro h
    rcases List.mem_append.mp h with h | h
    · revert h; decide
    · exact hn h
  rw [utf8ByteSize_eq, String.data_append] at hb
  unfold scanLines
  rw [hd, scanLinesFrom_line _ _ _ hl (by simpa using hb)]
  rfl

theorem foldl_adapterText (gs : List (String × Option String))
    (hgs : ∀ g ∈ gs, '\n' ∉ g.1.data ∧ TrimSpace g.1 ≠ "" ∧
      ("Name : " ++ g.1).utf8ByteSize < MaxScanTokenSize ∧
      ∀ s, g.2 = some s →
        '\n' ∉ s.data ∧ ("State : " ++ s).utf8ByteSize < MaxScanTokenSize) :
    ∀ st : AdapterLoop,
      flushLast ((scanLines (adapterText gs)).foldl adapterStep st) =
        flushLast st ++ gs.map adapterOf := by
  induction gs with
  | nil =>
    intro st
    have : scanLines (adapterText []) = [] := by decide
    simp [this]
  | cons g gs ih =>
    intro st
    obtain ⟨hn, hne, hb, hs⟩ := hgs g (by simp)
    have ih1 := ih (fun g1 hg1 => hgs g1 (by simp [hg1]))
    obtain ⟨name, state⟩ := g
    cases state with
    | none =>
      have ht : adapterText ((name, none) :: gs) =
          "Name : " ++ name ++ "\n" ++ adapterText gs := by
        simp [adapterText, adapterGroup, String.append_assoc]
      rw [ht, scanLines_name_line _ _ hn hb, List.foldl_cons, adapterStep_name_line, ih1]
      simp [flushLast, adapterOf, hne]
    | some state =>
      have ht : adapterText ((name, some state) :: gs) =
          "Name : " ++ name ++ "\n" ++ ("State : " ++ state ++ "\n" ++ adapterText gs) := by
        simp [adapterText, adapterGroup, String.append_assoc]
      rw [ht, scanLines_name_line _ _ hn hb,
        scanLines_state_line _ _ (hs state rfl).1 (hs state rfl).2,
        List.foldl_cons, List.foldl_cons, adapterStep_name_line, adapterStep_state_line, ih1]
      simp [flushLast, adapterOf, hne]

/-! ## The claims on the parsers -/

/-- C1 (defect in the code): on the status text
`Name : Wi-Fi\nState : connected\nSSID 1 : HomeNet\n` with an empty adapter
filter, the status parse of `GetConnectionStatus` yields connected = true with
an empty ssid, where the claim has ssid = `HomeNet`: the line `SSID 1 : HomeNet`
starts with `SSID ` and the guard `!strings.HasPrefix(line, "SSID ")` skips it.
The ssid is read when the label is not followed by a space. -/
theorem parseConnectionStatus_indexed_ssid_skipped :
    parseConnectionStatus "" "Name : Wi-Fi\nState : connected\nSSID 1 : HomeNet\n" =
      { Connected := true, SSID := "", AdapterName := "Wi-Fi", SignalStrength := "" } ∧
    parseConnectionStatus "" "Name : Wi-Fi\nState : connected\nSSID: HomeNet\n" =
      { Connected := true, SSID := "HomeNet", AdapterName := "Wi-Fi", SignalStrength := "" } := by
  decide

/-- C2 (defect in the code): the visible-network parse of `ScanNetworks`
yields no network for the lines `SSID 1 : Foo` and `SSID 2 : Bar`, where the
claim has one network per such line: both start with `SSID ` and are skipped by
the guard `!strings.HasPrefix(line, "SSID ")`, against the comment
`Handle "SSID 1 : NetworkName" format` in the branch.  A label that is not
followed by a space is read. -/
theorem parseNetworks_indexed_ssid_skipped :
    parseNetworks "SSID 1 : Foo\n" = [] ∧
    parseNetworks "SSID 1 : Foo\nSSID 2 : Bar\n" = [] ∧
    parseNetworks "SSID1 : Foo\nSSID2 : \nSSID: Bar\n" = [{ SSID := "Foo" }, { SSID := "Bar" }] := by
  decide

/-- C7, as stated, fails: the text made of the two adapter groups
`Name : <16384 times U+1F600>` and `Name : B` has a first line of 65543 bytes;
the scanner stops at it and the adapter parse of `GetAdapters` returns no
record, where the claim has two. -/
theorem parseAdapters_long_name_stops :
    (∀ g ∈ [(longName, (none : Option String)), ("B", none)],
      '\n' ∉ g.1.data ∧ TrimSpace g.1 ≠ "") ∧
    [(longName, (none : Option String)), ("B", none)].length = 2 ∧
    parseAdapters (adapterText [(longName, none), ("B", none)]) = [] := by
  refine ⟨?_, rfl, ?_⟩
  · intro g hg
    simp only [List.mem_cons, List.mem_singleton, List.not_mem_nil, or_false] at hg
    rcases hg with rfl | rfl
    · refine ⟨?_, ?_⟩
      · exact not_mem_replicate 16384 _ _ (by decide)
      · intro h
        have hs : isSpace (Char.ofNat 0x1F600) = false := by decide
        have hn : 0 < 16384 := by omega
        exact trimChars_replicate_ne_nil 16384 (Char.ofNat 0x1F600) hn hs
          (trimChars_of_TrimSpace_empty _ h)
    · exact ⟨by decide, by decide⟩
  · have ht : (adapterText [(longName, none), ("B", none)]).data =
        ("Name : ".data ++ longName.data) ++ '\n' :: "Name : B\n".data := by
      simp only [adapterText, adapterGroup, String.data_append, List.append_assoc]
      rfl
    have hl : '\n' ∉ "Name : ".data ++ longName.data := by
      intro h
      rcases List.mem_append.mp h with h | h
      · revert h; decide
      · exact not_mem_replicate 16384 _ _ (by decide) h
    have hb : MaxScanTokenSize ≤ String.utf8Len ([] ++ ("Name : ".data ++ longName.data)) := by
      rw [List.nil_append, String.utf8Len_append]
      have h4 : (Char.ofNat 0x1F600).utf8Size = 4 := by decide
      simp only [longName, utf8Len_replicate, h4, MaxScanTokenSize]
      omega
    unfold parseAdapters scanLines
    rw [ht, scanLinesFrom_long _ _ _ hl hb]
    decide

/-- C7, amended: every record returned by the adapter parse of `GetAdapters`
has a non-empty name, and for a text made of N adapter groups (each a
`Name : <value>` line whose trimmed value is not empty, optionally followed by
a `State : <value>` line) in which every line is shorter than 65536 bytes, the
result has exactly N records, in input order, the i-th with the trimmed name
and state of the i-th group. -/
theorem parseAdapters_groups (gs : List (String × Option String))
    (hgs : ∀ g ∈ gs, '\n' ∉ g.1.data ∧ TrimSpace g.1 ≠ "" ∧
      ("Name : " ++ g.1).utf8ByteSize < MaxScanTokenSize ∧
      ∀ s, g.2 = some s →
        '\n' ∉ s.data ∧ ("State : " ++ s).utf8ByteSize < MaxScanTokenSize) :
    (∀ output : String, ∀ a ∈ parseAdapters output, a.Name ≠ "") ∧
    parseAdapters (adapterText gs) = gs.map adapterOf ∧
    (parseAdapters (adapterText gs)).length = gs.length := by
  have h2 : parseAdapters (adapterText gs) = gs.map adapterOf := by
    unfold parseAdapters
    rw [foldl_adapterText gs hgs]
    simp [flushLast]
  refine ⟨?_, h2, ?_⟩
  · intro output
    unfold parseAdapters
    exact flushLast_names _ (foldl_adapterStep_names _ _ (by simp))
  · rw [h2, List.length_map]

/-- C7 amended, for two adapters, the first with a state line. -/
theorem parseAdapters_groups_witness :
    adapterText [("Wi-Fi", some "connected"), ("Wi-Fi 2 ", none)] =
      "Name : Wi-Fi\nState : connected\nName : Wi-Fi 2 \n" ∧
    parseAdapters (adapterText [("Wi-Fi", some "connected"), ("Wi-Fi 2 ", none)]) =
      [{ Name := "Wi-Fi", State := "connected" }, { Name := "Wi-Fi 2", State := "" }] :=
  ⟨by decide,
    (parseAdapters_groups [("Wi-Fi", some "connected"), ("Wi-Fi 2 ", none)] (by
      intro g hg
      simp only [List.mem_cons, List.mem_singleton, List.not_mem_nil, or_false] at hg
      rcases hg with rfl | rfl
      · exact ⟨by decide, by decide, by decide, fun s hs => by cases hs; decide⟩
      · exact ⟨by decide, by decide, by decide, fun s hs => by cases hs⟩)).2.1.trans
      (by decide)⟩

/-- C8, as stated, fails: a status text with a `State : connected` line and no
`SSID` line yields connected = true with an empty ssid. -/
theorem status_connected_empty_ssid :
    (parseConnectionStatus "" "Name : Wi-Fi\nState : connected\n").Connected = true ∧
    (parseConnectionStatus "" "Name : Wi-Fi\nState : connected\n").SSID = "" := by
  decide

/-! ## Lemmas on the profile parse -/

theorem containsChars_iff (sub l : List Char) : containsChars sub l = true ↔ sub <:+: l := by
  induction l with
  | nil => cases sub <;> simp [containsChars, List.isPrefixOf]
  | cons c l ih =>
    rw [containsChars, Bool.or_eq_true, ih, List.infix_cons_iff, List.isPrefixOf_iff_prefix]

theorem infix_dropWhile_space (a : Char) (rest l : List Char) (ha : isSpace a = false)
    (h : a :: rest <:+: l) : a :: rest <:+: l.dropWhile isSpace := by
  induction l with
  | nil => exact h
  | cons c l ih =>
    by_cases hc : isSpace c = true
    · rw [List.dropWhile_cons_of_pos hc]
      rcases List.infix_cons_iff.mp h with h1 | h1
      · rcases List.prefix_cons_iff.mp h1 with h2 | ⟨t, h2, _⟩
        · cases h2
        · injection h2 with h3
          rw [h3, hc] at ha
          cases ha
      · exact ih h1
    · rw [List.dropWhile_cons_of_neg hc]
      exact h

theorem infix_trimChars (a b : Char) (rest rest1 l : List Char) (ha : isSpace a = false)
    (hb : isSpace b = false) (hr : (a :: rest).reverse = b :: rest1) :
    a :: rest <:+: trimChars l ↔ a :: rest <:+: l := by
  constructor
  · intro h
    exact h.trans ((List.rdropWhile_prefix isSpace _).isInfix.trans
      (List.dropWhile_suffix isSpace).isInfix)
  · intro h
    have h1 := infix_dropWhile_space a rest l ha h
    have h2 : b :: rest1 <:+: (l.dropWhile isSpace).reverse := by
      rw [← hr]
      exact List.reverse_infix.mpr h1
    have h3 := infix_dropWhile_space b rest1 _ hb h2
    have h4 := List.reverse_infix.mpr h3
    rw [← hr, List.reverse_reverse] at h4
    exact h4

theorem Contains_TrimSpace (raw sub : String) (a b : Char) (rest rest1 : List Char)
    (hs : sub.data = a :: rest) (ha : isSpace a = false) (hb : isSpace b = false)
    (hr : (a :: rest).reverse = b :: rest1) :
    Contains (TrimSpace raw) sub = Contains raw sub := by
  unfold Contains TrimSpace
  rw [Bool.eq_iff_iff, containsChars_iff, containsChars_iff, hs]
  exact infix_trimChars a b rest rest1 raw.data ha hb hr

theorem Contains_TrimSpace_all (raw : String) :
    Contains (TrimSpace raw) "All User Profile" = Contains raw "All User Profile" :=
  Contains_TrimSpace raw "All User Profile" 'A' 'e' _ _ rfl (by decide) (by decide) rfl

theorem Contains_TrimSpace_current (raw : String) :
    Contains (TrimSpace raw) "Current User Profile" = Contains raw "Current User Profile" :=
  Contains_TrimSpace raw "Current User Profile" 'C' 'e' _ _ rfl (by decide) (by decide) rfl

theorem splitColon_no_colon (l : List Char) (h : ':' ∉ l) : splitColon l = (l, none) := by
  induction l with
  | nil => rfl
  | cons c l ih =>
    have hc : c ≠ ':' := fun e => h (by simp [e])
    have hl : ':' ∉ l := fun e => h (by simp [e])
    simp [splitColon, hc, ih hl]

theorem exists_first_colon (l : List Char) (h : ':' ∈ l) :
    ∃ k y, l = k ++ ':' :: y ∧ ':' ∉ k := by
  induction l with
  | nil => simp at h
  | cons c l ih =>
    by_cases hc : c = ':'
    · exact ⟨[], l, by simp [hc], by simp⟩
    · have hl : ':' ∈ l := by
        rcases List.mem_cons.mp h with e | e
        · exact absurd e.symm hc
        · exact e
      obtain ⟨k, y, hk, hn⟩ := ih hl
      refine ⟨c :: k, y, by simp [hk], ?_⟩
      intro e
      rcases List.mem_cons.mp e with e1 | e1
      · exact hc e1.symm
      · exact hn e1

theorem dropWhile_key (k y : List Char) :
    (k ++ ':' :: y).dropWhile isSpace = k.dropWhile isSpace ++ ':' :: y := by
  induction k with
  | nil => simp [show isSpace ':' = false by decide]
  | cons c k ih =>
    by_cases hc : isSpace c = true
    · simp [hc, ih]
    · simp [hc]

theorem trimChars_colon (k y : List Char) :
    trimChars (k ++ ':' :: y) = k.dropWhile isSpace ++ ':' :: y.rdropWhile isSpace := by
  rw [trimChars, dropWhile_key, rdropWhile_key]

theorem not_mem_trimChars (c : Char) (l : List Char) (h : c ∉ l) : c ∉ trimChars l := by
  intro e
  have h1 : c ∈ l.dropWhile isSpace := (List.rdropWhile_prefix isSpace _).subset e
  exact h ((List.dropWhile_suffix isSpace).subset h1)

theorem SplitN_TrimSpace_colon (raw : String) (k y : List Char)
    (h : raw.data = k ++ ':' :: y) (hk : ':' ∉ k) :
    SplitN (TrimSpace raw) = [⟨k.dropWhile isSpace⟩, ⟨y.rdropWhile isSpace⟩] := by
  have hk1 : ':' ∉ k.dropWhile isSpace := fun e => hk ((List.dropWhile_suffix isSpace).subset e)
  unfold SplitN TrimSpace
  simp only [h, trimChars_colon, splitColon_key _ _ hk1]

theorem SplitN_TrimSpace_no_colon (raw : String) (h : ':' ∉ raw.data) :
    SplitN (TrimSpace raw) = [TrimSpace raw] := by
  unfold SplitN
  have : splitColon (TrimSpace raw).data = ((TrimSpace raw).data, none) :=
    splitColon_no_colon _ (not_mem_trimChars _ _ h)
  simp only [this]

theorem profileStep_eq (profiles : List String) (raw : String) :
    profileStep profiles raw = profiles ++ (profileOfLine raw).toList := by
  unfold profileStep profileOfLine
  simp only [Contains_TrimSpace_all, Contains_TrimSpace_current]
  by_cases hc : (Contains raw "All User Profile" || Contains raw "Current User Profile") = true
  · simp only [hc, if_true]
    by_cases hcol : ':' ∈ raw.data
    · obtain ⟨k, y, hky, hk⟩ := exists_first_colon _ hcol
      have hv : TrimSpace ⟨y.rdropWhile isSpace⟩ = TrimSpace ⟨y⟩ :=
        congrArg String.mk (trimChars_rdropWhile y)
      rw [SplitN_TrimSpace_colon raw k y hky hk]
      simp only [hky, splitColon_key _ _ hk, hv]
      by_cases he : TrimSpace ⟨y⟩ = ""
      · simp [he]
      · simp [he]
    · rw [SplitN_TrimSpace_no_colon raw hcol]
      simp [splitColon_no_colon _ hcol]
  · simp [hc]

theorem foldl_profileStep (ls : List String) :
    ∀ profiles : List String,
      ls.foldl profileStep profiles = profiles ++ ls.filterMap profileOfLine := by
  induction ls with
  | nil => intro profiles; simp
  | cons raw rest ih =>
    intro profiles
    rw [List.foldl_cons, ih, profileStep_eq]
    cases h : profileOfLine raw <;> simp [List.filterMap_cons, h]

/-! ## Lemmas on the scanner and the lines of a text -/

theorem joinLine_nil (ls : List (List Char)) : joinLine [] ls = ls := by
  cases ls <;> simp [joinLine]

theorem scanLinesFrom_eq (l : List Char) :
    ∀ cur : List Char,
      scanLinesFrom l cur =
        ((joinLine cur (textLinesChars l)).takeWhile fun x =>
          decide (String.utf8Len x < MaxScanTokenSize)).map dropCR := by
  induction l with
  | nil =>
    intro cur
    by_cases hc : cur = []
    · simp [scanLinesFrom, textLinesChars, joinLine, hc]
    · by_cases hb : String.utf8Len cur < MaxScanTokenSize
      · simp [scanLinesFrom, textLinesChars, joinLine, hc, hb, List.takeWhile_cons]
      · simp [scanLinesFrom, textLinesChars, joinLine, hc, hb, List.takeWhile_cons]
  | cons c cs ih =>
    intro cur
    by_cases hc : c = '\n'
    · by_cases hb : String.utf8Len cur < MaxScanTokenSize
      · rw [scanLinesFrom, if_pos hc, if_pos hb, ih [], joinLine_nil, textLinesChars, if_pos hc]
        simp [joinLine, List.takeWhile_cons, hb]
      · simp [scanLinesFrom, textLinesChars, joinLine, hc, hb, List.takeWhile_cons]
    · rw [scanLinesFrom, if_neg hc, ih (cur ++ [c]), textLinesChars, if_neg hc]
      cases textLinesChars cs with
      | nil => simp [joinLine]
      | cons x xs => simp [joinLine]

theorem scanLines_eq (output : String) :
    scanLines output =
      ((textLines output).takeWhile fun l => decide (l.utf8ByteSize < MaxScanTokenSize)).map
        fun l => ⟨dropCR l.data⟩ := by
  unfold scanLines textLines
  rw [scanLinesFrom_eq, joinLine_nil, List.takeWhile_map, List.map_map, List.map_map]
  rfl

theorem scanLines_eq_of_short (output : String)
    (h : ∀ l ∈ textLines output, l.utf8ByteSize < MaxScanTokenSize) :
    scanLines output = (textLines output).map fun l => ⟨dropCR l.data⟩ := by
  rw [scanLines_eq]
  congr 1
  rw [List.takeWhile_eq_self_iff]
  intro l hl
  simpa using h l hl

theorem textLinesChars_line (l rest : List Char) (hl : '\n' ∉ l) :
    textLinesChars (l ++ '\n' :: rest) = l :: textLinesChars rest := by
  induction l with
  | nil => simp [textLinesChars]
  | cons c l ih =>
    have hc : c ≠ '\n' := fun h => hl (by simp [h])
    have hl1 : '\n' ∉ l := fun h => hl (by simp [h])
    simp [textLinesChars, hc, ih hl1]

theorem profileStep_dropCR (profiles : List String) (l : List Char) :
    profileStep profiles ⟨dropCR l⟩ = profileStep profiles ⟨l⟩ := by
  have ht : TrimSpace ⟨dropCR l⟩ = TrimSpace ⟨l⟩ := congrArg String.mk (trimChars_dropCR l)
  unfold profileStep
  rw [ht]

theorem profileOfLine_dropCR (l : String) : profileOfLine ⟨dropCR l.data⟩ = profileOfLine l := by
  have h := profileStep_dropCR [] l.data
  rw [profileStep_eq, profileStep_eq] at h
  cases h1 : profileOfLine ⟨dropCR l.data⟩ <;> cases h2 : profileOfLine l <;>
    simp_all

theorem parseProfiles_eq_short (output : String) :
    parseProfiles output = savedProfilesOfShortLines output := by
  unfold parseProfiles savedProfilesOfShortLines
  rw [foldl_profileStep, List.nil_append, scanLines_eq, List.filterMap_map]
  congr 1
  funext l
  exact profileOfLine_dropCR l

theorem containsChars_replicate (a c : Char) (rest : List Char) (n : Nat) (h : a ≠ c) :
    containsChars (a :: rest) (List.replicate n c) = false := by
  rw [Bool.eq_false_iff]
  intro hc
  have hi := (containsChars_iff _ _).mp hc
  exact not_mem_replicate n a c h (hi.subset (by simp))

theorem utf8ByteSize_replicate (n : Nat) (c : Char) :
    (String.mk (List.replicate n c)).utf8ByteSize = n * c.utf8Size := by
  rw [utf8ByteSize_eq, utf8Len_replicate]

theorem longLine_not_short : decide (longLine.utf8ByteSize < MaxScanTokenSize) = false := by
  unfold longLine
  rw [utf8ByteSize_replicate, show ('x' : Char).utf8Size = 1 by decide]
  decide

theorem profileOfLine_longLine : profileOfLine longLine = none := by
  have h1 : Contains longLine "All User Profile" = false :=
    containsChars_replicate 'A' 'x' _ 65536 (by decide)
  have h2 : Contains longLine "Current User Profile" = false :=
    containsChars_replicate 'C' 'x' _ 65536 (by decide)
  unfold profileOfLine
  rw [h1, h2]
  rfl

theorem textLines_profilesAroundLongLine :
    textLines profilesAroundLongLine =
      ["All User Profile : A", longLine, "All User Profile : B"] := by
  have hd : profilesAroundLongLine.data =
      "All User Profile : A".data ++ '\n' ::
        (longLine.data ++ '\n' :: ("All User Profile : B".data ++ '\n' :: [])) := by
    unfold profilesAroundLongLine
    simp only [String.data_append, List.append_assoc]
    rfl
  have hn : '\n' ∉ longLine.data := not_mem_replicate 65536 '\n' 'x' (by decide)
  unfold textLines
  rw [hd, textLinesChars_line _ _ (by decide), textLinesChars_line longLine.data _ hn,
    textLinesChars_line _ _ (by decide)]
  rfl

/-! ## Lemmas on the value and the label of a line -/

theorem lineValue_TrimSpace (raw : String) : lineValue (TrimSpace raw) = lineValue raw := by
  unfold lineValue
  by_cases hcol : ':' ∈ raw.data
  · obtain ⟨k, y, hky, hk⟩ := exists_first_colon _ hcol
    have hk1 : ':' ∉ k.dropWhile isSpace :=
      fun e => hk ((List.dropWhile_suffix isSpace).subset e)
    have hv : TrimSpace ⟨y.rdropWhile isSpace⟩ = TrimSpace ⟨y⟩ :=
      congrArg String.mk (trimChars_rdropWhile y)
    have h1 : splitColon (TrimSpace raw).data =
        (k.dropWhile isSpace, some (y.rdropWhile isSpace)) := by
      show splitColon (trimChars raw.data) = _
      rw [hky, trimChars_colon, splitColon_key _ _ hk1]
    rw [h1, hky, splitColon_key _ _ hk]
    simp only [hv]
  · have h1 : splitColon (TrimSpace raw).data = ((TrimSpace raw).data, none) :=
      splitColon_no_colon _ (not_mem_trimChars _ _ hcol)
    rw [h1, splitColon_no_colon _ hcol]

theorem lineValue_of_SplitN (line k v : String) (h : SplitN line = [k, v]) :
    lineValue line = some (TrimSpace v) := by
  unfold SplitN at h
  unfold lineValue
  rcases hs : splitColon line.data with ⟨a, _ | b⟩
  · rw [hs] at h
    simp at h
  · rw [hs] at h
    simp only [List.cons.injEq, and_true] at h
    rw [← h.2]

theorem SplitN_of_lineValue (line : String) (h : lineValue line ≠ none) :
    ∃ k v, SplitN line = [k, v] := by
  unfold lineValue at h
  unfold SplitN
  rcases hs : splitColon line.data with ⟨a, _ | b⟩
  · rw [hs] at h
    exact absurd rfl h
  · exact ⟨⟨a⟩, ⟨b⟩, rfl⟩

theorem TrimSpace_dropCR (l : String) : TrimSpace ⟨dropCR l.data⟩ = TrimSpace l :=
  congrArg String.mk (trimChars_dropCR l.data)

theorem HasPrefix_data (line label : String) (h : HasPrefix line label = true) :
    ∃ t, line.data = label.data ++ t := by
  unfold HasPrefix at h
  obtain ⟨t, ht⟩ := List.isPrefixOf_iff_prefix.mp h
  exact ⟨t, ht.symm⟩

theorem not_State_of_SSID (line : String) (h : HasPrefix line "SSID" = true) :
    HasPrefix line "State" = false := by
  obtain ⟨t, ht⟩ := HasPrefix_data line "SSID" h
  unfold HasPrefix
  rw [ht]
  rfl

theorem not_Name_of_SSID (line : String) (h : HasPrefix line "SSID" = true) :
    HasPrefix line "Name" = false := by
  obtain ⟨t, ht⟩ := HasPrefix_data line "SSID" h
  unfold HasPrefix
  rw [ht]
  rfl

/-! ## Lemmas on the status parse without an adapter filter -/

theorem statusLoop_empty_cons (raw : String) (rest : List String) (st : StatusLoop) :
    statusLoop "" (raw :: rest) st =
      statusLoop "" rest
        (if (statusName "" st (TrimSpace raw)).inTargetAdapter = true then
          statusField (statusName "" st (TrimSpace raw)) (TrimSpace raw)
        else statusName "" st (TrimSpace raw)) := by
  rw [statusLoop]
  by_cases hin : (statusName "" st (TrimSpace raw)).inTargetAdapter = true
  · simp [hin]
  · simp [hin]

theorem statusName_inTarget_empty (st : StatusLoop) (line : String)
    (h : st.inTargetAdapter = true) : (statusName "" st line).inTargetAdapter = true := by
  unfold statusName
  by_cases hp : HasPrefix line "Name" = true
  · simp only [hp, if_true]
    rcases SplitN line with _ | ⟨k, _ | ⟨v, _ | ⟨x, r⟩⟩⟩
    · exact h
    · exact h
    · simp
    · exact h
  · simp only [hp, Bool.false_eq_true, if_false]
    exact h

theorem statusField_inTarget (st : StatusLoop) (line : String) :
    (statusField st line).inTargetAdapter = st.inTargetAdapter := by
  unfold statusField
  rcases SplitN line with _ | ⟨k, _ | ⟨v, _ | ⟨x, r⟩⟩⟩ <;>
    by_cases h1 : HasPrefix line "State" = true <;>
    by_cases h2 : HasPrefix line "SSID" = true <;>
    by_cases h3 : HasPrefix line "SSID " = true <;>
    by_cases h4 : HasPrefix line "Signal" = true <;>
    simp [h1, h2, h3, h4]

theorem statusField_other (st : StatusLoop) (line : String)
    (h1 : HasPrefix line "State" = false) (h2 : HasPrefix line "SSID" = false) :
    (statusField st line).status.Connected = st.status.Connected ∧
    (statusField st line).status.SSID = st.status.SSID := by
  unfold statusField
  rcases SplitN line with _ | ⟨k, _ | ⟨v, _ | ⟨x, r⟩⟩⟩ <;>
    by_cases h4 : HasPrefix line "Signal" = true <;>
    simp [h1, h2, h4]

theorem statusField_state_single (st : StatusLoop) (line : String)
    (h1 : HasPrefix line "State" = true) (h : ∀ k v, SplitN line ≠ [k, v]) :
    statusField st line = st := by
  unfold statusField
  rcases hparts : SplitN line with _ | ⟨k, _ | ⟨v, _ | ⟨x, r⟩⟩⟩
  · simp [h1]
  · simp [h1]
  · exact absurd hparts (h k v)
  · simp [h1]

theorem statusField_state_pair (st : StatusLoop) (line k v : String)
    (h1 : HasPrefix line "State" = true) (h : SplitN line = [k, v]) :
    (statusField st line).status.Connected = decide (TrimSpace v = "connected") ∧
    (statusField st line).status.SSID = st.status.SSID := by
  unfold statusField
  simp [h1, h]

theorem statusField_ssid_pair (st : StatusLoop) (line k v : String)
    (h2 : HasPrefix line "SSID" = true) (h3 : HasPrefix line "SSID " = false)
    (h : SplitN line = [k, v]) :
    (statusField st line).status.SSID = TrimSpace v := by
  unfold statusField
  simp [not_State_of_SSID line h2, h2, h3, h]

theorem ssidPending_carry (L R : List String) (raw : String) (st st1 : StatusLoop)
    (hin : st1.inTargetAdapter = true) (hs : st1.status.SSID = st.status.SSID)
    (hc : st1.status.Connected = st.status.Connected)
    (hraw : lineStartsWith raw "SSID" = false) (h : SsidPending L (raw :: R) st) :
    SsidPending L R st1 := by
  intro hc1
  rw [hc] at hc1
  rcases h hc1 with ⟨_, hne, l, hl, hl1, hl2⟩ | ⟨_, x, hx, hx1⟩
  · exact Or.inl ⟨hin, by rw [hs]; exact hne, l, hl, hl1, by rw [hs]; exact hl2⟩
  · rcases List.mem_cons.mp hx with rfl | hx2
    · rw [hraw] at hx1
      cases hx1
    · exact Or.inr ⟨hin, x, hx2, hx1⟩

theorem ssidPending_step (L R : List String) (raw raw1 : String) (st : StatusLoop)
    (hpad : ∀ l ∈ L, lineStartsWith l "SSID " = false)
    (hval : ∀ l ∈ L, lineStartsWith l "SSID" = true →
      lineValue l ≠ none ∧ lineValue l ≠ some "")
    (hraw : raw ∈ L) (ht : TrimSpace raw1 = TrimSpace raw)
    (hfol : isStateConnected raw = true → ∃ x ∈ R, lineStartsWith x "SSID" = true)
    (h : SsidPending L (raw :: R) st) :
    SsidPending L R
      (if (statusName "" st (TrimSpace raw1)).inTargetAdapter = true then
        statusField (statusName "" st (TrimSpace raw1)) (TrimSpace raw1)
      else statusName "" st (TrimSpace raw1)) := by
  rw [ht]
  have hst := statusName_status "" st (TrimSpace raw)
  by_cases hin : (statusName "" st (TrimSpace raw)).inTargetAdapter = true
  · simp only [hin, if_true]
    have hfin := statusField_inTarget (statusName "" st (TrimSpace raw)) (TrimSpace raw)
    rw [hin] at hfin
    by_cases hS : HasPrefix (TrimSpace raw) "State" = true
    · have hnot : lineStartsWith raw "SSID" = false := by
        cases hI : lineStartsWith raw "SSID"
        · rfl
        · rw [not_State_of_SSID _ hI] at hS
          cases hS
      by_cases hp : ∃ k v, SplitN (TrimSpace raw) = [k, v]
      · obtain ⟨k, v, hkv⟩ := hp
        have hf := statusField_state_pair (statusName "" st (TrimSpace raw)) _ k v hS hkv
        intro hc
        rw [hf.1] at hc
        have hv : TrimSpace v = "connected" := of_decide_eq_true hc
        have hlv : lineValue raw = some "connected" := by
          rw [← lineValue_TrimSpace, lineValue_of_SplitN _ k v hkv, hv]
        have hsc : isStateConnected raw = true := by
          unfold isStateConnected lineStartsWith
          rw [hS, hlv]
          rfl
        obtain ⟨x, hx, hx1⟩ := hfol hsc
        exact Or.inr ⟨hfin, x, hx, hx1⟩
      · have hf := statusField_state_single (statusName "" st (TrimSpace raw)) _ hS
          (fun k v e => hp ⟨k, v, e⟩)
        rw [hf]
        exact ssidPending_carry L R raw st _ hin (by rw [hst]) (by rw [hst]) hnot h
    · by_cases hI : HasPrefix (TrimSpace raw) "SSID" = true
      · have hv := hval raw hraw hI
        have hvt : lineValue (TrimSpace raw) ≠ none := by
          rw [lineValue_TrimSpace]; exact hv.1
        obtain ⟨k, v, hkv⟩ := SplitN_of_lineValue _ hvt
        have hs := statusField_ssid_pair (statusName "" st (TrimSpace raw)) _ k v hI
          (hpad raw hraw) hkv
        have hlv : lineValue raw = some (TrimSpace v) := by
          rw [← lineValue_TrimSpace, lineValue_of_SplitN _ k v hkv]
        intro _
        refine Or.inl ⟨hfin, ?_, raw, hraw, hI, ?_⟩
        · rw [hs]
          intro e
          rw [e] at hlv
          exact hv.2 hlv
        · rw [hs]; exact hlv
      · have hS1 : HasPrefix (TrimSpace raw) "State" = false := by
          cases hh : HasPrefix (TrimSpace raw) "State"
          · rfl
          · exact absurd hh hS
        have hI1 : HasPrefix (TrimSpace raw) "SSID" = false := by
          cases hh : HasPrefix (TrimSpace raw) "SSID"
          · rfl
          · exact absurd hh hI
        have hf := statusField_other (statusName "" st (TrimSpace raw)) _ hS1 hI1
        exact ssidPending_carry L R raw st _ hfin (by rw [hf.2, hst]) (by rw [hf.1, hst])
          hI1 h
  · simp only [hin, Bool.false_eq_true, if_false]
    intro hc
    rw [hst] at hc
    have hstin : st.inTargetAdapter = true := by
      rcases h hc with ⟨h1, _⟩ | ⟨h1, _⟩
      · exact h1
      · exact h1
    exact absurd (statusName_inTarget_empty st _ hstin) hin

theorem statusLoop_empty_ssid (L : List String)
    (hpad : ∀ l ∈ L, lineStartsWith l "SSID " = false)
    (hval : ∀ l ∈ L, lineStartsWith l "SSID" = true →
      lineValue l ≠ none ∧ lineValue l ≠ some "") :
    ∀ (R : List String) (st : StatusLoop), (∀ r ∈ R, r ∈ L) →
      connectedStateFollowedBySsid R = true → SsidPending L R st →
      (statusLoop "" (R.map fun l => ⟨dropCR l.data⟩) st).status.Connected = true →
      SsidRead L (statusLoop "" (R.map fun l => ⟨dropCR l.data⟩) st) := by
  intro R
  induction R with
  | nil =>
    intro st _ _ h hc
    rcases h hc with h1 | ⟨_, x, hx, _⟩
    · exact h1
    · simp at hx
  | cons raw rest ih =>
    intro st hL hfol h
    rw [List.map_cons, statusLoop_empty_cons]
    simp only [connectedStateFollowedBySsid, Bool.and_eq_true, Bool.or_eq_true,
      Bool.not_eq_true', List.any_eq_true] at hfol
    refine ih _ (fun r hr => hL r (by simp [hr])) hfol.2 ?_
    refine ssidPending_step L rest raw _ st hpad hval (hL raw (by simp)) (TrimSpace_dropCR raw)
      ?_ h
    intro hsc
    rcases hfol.1 with h0 | h1
    · rw [hsc] at h0
      cases h0
    · exact h1

/-! ## Lemmas on the status parse with an adapter filter -/

theorem statusName_not_named (adapterName : String) (st : StatusLoop) (raw : String)
    (hF : adapterName ≠ "") (hin : st.inTargetAdapter = false)
    (hn : ¬NamesAdapter raw adapterName) :
    (statusName adapterName st (TrimSpace raw)).inTargetAdapter = false := by
  unfold statusName
  by_cases hp : HasPrefix (TrimSpace raw) "Name" = true
  · simp only [hp, if_true]
    rcases hparts : SplitN (TrimSpace raw) with _ | ⟨k, _ | ⟨v, _ | ⟨x, r⟩⟩⟩
    · exact hin
    · exact hin
    · have hv : TrimSpace v ≠ adapterName := fun e => hn ⟨hp, k, v, hparts, e⟩
      simp [hF, hv]
    · exact hin
  · simp only [hp, Bool.false_eq_true, if_false]
    exact hin

theorem statusLoop_not_named (adapterName : String) (hF : adapterName ≠ "") :
    ∀ (ls : List String) (st : StatusLoop), st.inTargetAdapter = false →
      (∀ raw ∈ ls, ¬NamesAdapter raw adapterName) →
      (statusLoop adapterName ls st).status = st.status := by
  intro ls
  induction ls with
  | nil => intro st _ _; rfl
  | cons raw rest ih =>
    intro st hin hn
    have h1 := statusName_not_named adapterName st raw hF hin (hn raw (by simp))
    unfold statusLoop
    simp only [h1, Bool.not_false, if_true]
    rw [ih _ h1 (fun r hr => hn r (by simp [hr])), statusName_status]

/-! ## The claims on the status parse, the profile parse and the adapter filter -/

/-- C8, amended: for the status parse of `GetConnectionStatus` without an
adapter filter, and for every text whose lines are shorter than 65536 bytes,
in which no line starts with `SSID ` (what the parse does with such a line is
left out), every line that starts with `SSID` has a colon and a non-empty
trimmed value, and every `State` line whose value is `connected` is followed
by a line that starts with `SSID`: if the returned status has connected = true
then its ssid is non-empty, and it is the trimmed value of a line of the text
that starts with `SSID`. -/
theorem status_connected_ssid (output : String)
    (hshort : ∀ l ∈ textLines output, l.utf8ByteSize < MaxScanTokenSize)
    (hpad : ∀ l ∈ textLines output, lineStartsWith l "SSID " = false)
    (hval : ∀ l ∈ textLines output, lineStartsWith l "SSID" = true →
      lineValue l ≠ none ∧ lineValue l ≠ some "")
    (hfol : connectedStateFollowedBySsid (textLines output) = true)
    (hconn : (parseConnectionStatus "" output).Connected = true) :
    (parseConnectionStatus "" output).SSID ≠ "" ∧
    ∃ l ∈ textLines output, lineStartsWith l "SSID" = true ∧
      lineValue l = some (parseConnectionStatus "" output).SSID := by
  unfold parseConnectionStatus at hconn ⊢
  rw [scanLines_eq_of_short output hshort] at hconn ⊢
  have h := statusLoop_empty_ssid (textLines output) hpad hval (textLines output)
    { status := { Connected := false, SSID := "", AdapterName := "", SignalStrength := "" },
      currentAdapterName := "",
      inTargetAdapter := false }
    (fun _ hr => hr) hfol (fun hc => by simp at hc) hconn
  exact ⟨h.2.1, h.2.2⟩

/-- C8 amended, at the text `Name : Wi-Fi`, `State : connected`,
`SSID: HomeNet`. -/
theorem status_connected_ssid_witness :
    textLines "Name : Wi-Fi\nState : connected\nSSID: HomeNet\n" =
      ["Name : Wi-Fi", "State : connected", "SSID: HomeNet"] ∧
    connectedStateFollowedBySsid
      (textLines "Name : Wi-Fi\nState : connected\nSSID: HomeNet\n") = true ∧
    (parseConnectionStatus "" "Name : Wi-Fi\nState : connected\nSSID: HomeNet\n").Connected =
      true ∧
    (parseConnectionStatus "" "Name : Wi-Fi\nState : connected\nSSID: HomeNet\n").SSID ≠ "" :=
  ⟨by decide, by decide, by decide,
    (status_connected_ssid "Name : Wi-Fi\nState : connected\nSSID: HomeNet\n"
      (by decide) (by decide) (by decide) (by decide) (by decide)).1⟩

/-- C11, as stated, fails: on the text `All User Profile : A`, a line of 65536
bytes, `All User Profile : B`, the saved-profile parse of `GetSavedProfiles`
returns `A` only, as the scanner stops at the long line, where the list of the
claim, taken over every line of the text, is `A`, `B`. -/
theorem parseProfiles_stops_at_long_line :
    textLines profilesAroundLongLine =
      ["All User Profile : A", longLine, "All User Profile : B"] ∧
    savedProfilesOfLines profilesAroundLongLine = ["A", "B"] ∧
    parseProfiles profilesAroundLongLine = ["A"] := by
  have hl := textLines_profilesAroundLongLine
  have hlong := profileOfLine_longLine
  have ha : profileOfLine "All User Profile : A" = some "A" := by decide
  have hb : profileOfLine "All User Profile : B" = some "B" := by decide
  refine ⟨hl, ?_, ?_⟩
  · unfold savedProfilesOfLines
    rw [hl, List.filterMap_cons_some ha, List.filterMap_cons_none hlong,
      List.filterMap_cons_some hb, List.filterMap_nil]
  · rw [parseProfiles_eq_short]
    unfold savedProfilesOfShortLines
    have hsa : decide (("All User Profile : A" : String).utf8ByteSize < MaxScanTokenSize) =
        true := by decide
    have hsl : ¬decide (longLine.utf8ByteSize < MaxScanTokenSize) = true := by
      rw [longLine_not_short]
      exact Bool.false_ne_true
    rw [hl,
      List.takeWhile_cons_of_pos
        (p := fun l : String => decide (l.utf8ByteSize < MaxScanTokenSize)) hsa,
      List.takeWhile_cons_of_neg
        (p := fun l : String => decide (l.utf8ByteSize < MaxScanTokenSize)) hsl,
      List.filterMap_cons_some ha, List.filterMap_nil]

/-- C11, amended: the saved-profile parse of `GetSavedProfiles` returns exactly
the list, in input order, of the trimmed text after the first colon of every
line that comes before the first line of 65536 bytes or more (every line of
the text when all its lines are shorter), contains `All User Profile` or
`Current User Profile`, has a colon and has a non-empty trimmed value; in
particular the text `All User Profile     : Foo\nAll User Profile     : Bar\n`
yields `Foo`, `Bar`. -/
theorem parseProfiles_short_lines (output : String) :
    parseProfiles output = savedProfilesOfShortLines output ∧
    ((∀ l ∈ textLines output, l.utf8ByteSize < MaxScanTokenSize) →
      parseProfiles output = savedProfilesOfLines output) ∧
    parseProfiles "All User Profile     : Foo\nAll User Profile     : Bar\n" =
      ["Foo", "Bar"] := by
  refine ⟨parseProfiles_eq_short output, ?_, by decide⟩
  intro h
  rw [parseProfiles_eq_short]
  unfold savedProfilesOfShortLines savedProfilesOfLines
  congr 1
  rw [List.takeWhile_eq_self_iff]
  intro l hl
  simpa using h l hl

/-- C12 (defect in the code): with the adapter filter `Wi-Fi`, on a text whose
group named `Wi-Fi` has a `State` line followed by an `SSID` line and a
`Signal : 80%` line, the status parse of `GetConnectionStatus` returns the
adapter name and the connected flag with an empty ssid and an empty signal
strength, where the claim has the ssid and signalStrength = `80%`: the loop
breaks as soon as the `State` line has set the adapter name.  Without a filter
the same text gives all four fields.  The second half of the claim holds: when
no `Name` line names a non-empty filter, the status is not connected and all
its fields are empty. -/
theorem status_filter_stops_at_state :
    parseConnectionStatus "Wi-Fi"
        "Name : Wi-Fi\nState : connected\nSSID: HomeNet\nSignal : 80%\n" =
      { Connected := true, SSID := "", AdapterName := "Wi-Fi", SignalStrength := "" } ∧
    parseConnectionStatus ""
        "Name : Wi-Fi\nState : connected\nSSID: HomeNet\nSignal : 80%\n" =
      { Connected := true, SSID := "HomeNet", AdapterName := "Wi-Fi",
        SignalStrength := "80%" } ∧
    (∀ adapterName output : String, adapterName ≠ "" →
      (∀ raw ∈ scanLines output, ¬NamesAdapter raw adapterName) →
      parseConnectionStatus adapterName output =
        { Connected := false, SSID := "", AdapterName := "", SignalStrength := "" }) := by
  refine ⟨by decide, by decide, ?_⟩
  intro adapterName output hF hn
  unfold parseConnectionStatus
  rw [statusLoop_not_named adapterName hF _ _ rfl hn]

end Quadmax
